import Mathlib

/-!
# recaptchav3: the policy check `Response.Verify`, its error taxonomy and `siteVerify`

A shallow embedding of `response.go`, `errors.go` and `siteverify.go`.

Modelling conventions.

* Go `string` values are Lean `String`s; `==` on strings is Lean equality and
  the `%s` verb of `fmt` copies the string.
* A Go `[]string` is an `Option (List String)`: `none` is the nil slice and
  `some xs` a non-nil slice holding `xs` (so `some []` is the empty, non-nil
  slice).
* A `float64` is its IEEE 754 binary64 bit pattern; `<` and `==` are the IEEE
  comparisons (false as soon as one operand is a NaN, `-0` equal to `+0`).
* An `error` interface value is an `Option GoError`, `none` being `nil`;
  `GoError` holds the errors of the package and of the standard library, and
  the errors a caller can hand in: errors with an `Is` method of their own and
  errors with an `Unwrap() []error` method.
* The HTTP transport and the JSON decoder are not part of the package: what
  they return is given by an `Env`, over which every statement on `siteVerify`
  is quantified.
* The JSON form of a `Response` follows the documentation of `encoding/json`
  on the level of JSON values; the text of a number and of a timestamp is
  left to a `LeafCodec`, which stands for strconv and `time.Time`.
-/

namespace Recaptchav3

/-! ## float64 -/

/-- An IEEE 754 binary64 value, given by its 64 bit pattern
(1 sign bit, 11 exponent bits, 52 fraction bits). -/
structure Float64 where
  bits : Nat
  isBits : bits < 2 ^ 64
deriving DecidableEq

namespace Float64

/-- The sign bit. -/
def sign (x : Float64) : Bool := x.bits / 2 ^ 63 == 1

/-- The exponent and fraction bits, read as one unsigned number. Among the
values that are not NaN it grows with the absolute value. -/
def magnitude (x : Float64) : Nat := x.bits % 2 ^ 63

/-- NaN: exponent bits all set and a non-zero fraction, that is a magnitude
above the one of infinity, `0x7FF0000000000000`. -/
def isNaN (x : Float64) : Bool := decide (0x7FF0000000000000 < x.magnitude)

/-- Position of a value that is not NaN on the number line (both zeros at 0). -/
def key (x : Float64) : Int :=
  if x.sign then -(x.magnitude : Int) else (x.magnitude : Int)

/-- The Go comparison `x < y` on float64. -/
def lt (x y : Float64) : Bool :=
  !x.isNaN && !y.isNaN && decide (x.key < y.key)

/-- The Go comparison `x == y` on float64. -/
def eq (x y : Float64) : Bool :=
  !x.isNaN && !y.isNaN && decide (x.key = y.key)

/-- The Go comparison `x <= y` on float64. -/
def le (x y : Float64) : Bool :=
  !x.isNaN && !y.isNaN && decide (x.key ≤ y.key)

/-- The zero value of float64, `+0`. -/
def zero : Float64 := ⟨0, by decide⟩

/-- The constant `1.0`. -/
def one : Float64 := ⟨0x3FF0000000000000, by decide⟩

/-- The constant `0.5`. -/
def half : Float64 := ⟨0x3FE0000000000000, by decide⟩

/-- The constant `0.4` (nearest binary64 value). -/
def fourTenths : Float64 := ⟨0x3FD999999999999A, by decide⟩

/-- A quiet NaN. -/
def nan : Float64 := ⟨0x7FF8000000000001, by decide⟩

end Float64

/-! ## Errors -/

/-- The struct `errBelowMinScore` of errors.go. -/
structure errBelowMinScore where
  Score : Float64
  MinScore : Float64
deriving DecidableEq

/-- The error values this package builds, meets and can be handed by a caller.

* `plain msg`: an error without an `Unwrap` method and without an `Is`
  method, such as the result of `errors.New(msg)` or of `fmt.Errorf` with no
  `%w` verb (`io.EOF` is `plain "EOF"`);
* `wrap msg inner`: an error whose `Unwrap() error` method returns `inner`,
  such as the result of `fmt.Errorf` with one `%w` verb, `msg` being the
  formatted text;
* `belowMinScore e`: a `*errBelowMinScore`;
* `foreign msg answer`: an error of another package that has an `Is` method of
  its own and no `Unwrap` method; `answer` is what that `Is` method returns
  when the target is a `*errBelowMinScore`, the only target this package hands
  to `errors.Is`;
* `foreignWrap msg answer inner`: the same with an `Unwrap() error` method
  that returns `inner`;
* `join msg first second`: an error whose `Unwrap() []error` method returns
  the two errors, such as the result of `errors.Join` or of `fmt.Errorf` with
  two `%w` verbs (a longer list nests to the right). -/
inductive GoError where
  | plain (msg : String)
  | wrap (msg : String) (inner : GoError)
  | belowMinScore (e : errBelowMinScore)
  | foreign (msg : String) (answer : Bool)
  | foreignWrap (msg : String) (answer : Bool) (inner : GoError)
  | join (msg : String) (first second : GoError)
deriving DecidableEq

/-- The method `(*errBelowMinScore).Error`; the `%g` verb of `fmt` is the
parameter `fmtG`. -/
def errBelowMinScore.Error (fmtG : Float64 → String) (e : errBelowMinScore) : String :=
  "recaptchav3: score '" ++ fmtG e.Score ++ "' less than '" ++ fmtG e.MinScore ++ "'"

/-- The method `Error` of an error value. -/
def GoError.Error (fmtG : Float64 → String) : GoError → String
  | .plain msg => msg
  | .wrap msg _ => msg
  | .belowMinScore e => e.Error fmtG
  | .foreign msg _ => msg
  | .foreignWrap msg _ _ => msg
  | .join msg _ _ => msg

/-- The standard library function `errors.Unwrap` on a non-nil error: the
result of the method `Unwrap() error` when the error has one, nil otherwise,
also for an error with an `Unwrap() []error` method. -/
def errorsUnwrap : GoError → Option GoError
  | .wrap _ inner => some inner
  | .plain _ => none
  | .belowMinScore _ => none
  | .foreign _ _ => none
  | .foreignWrap _ _ inner => some inner
  | .join _ _ _ => none

/-- The type assertion `_, ok = err.(*errBelowMinScore)` on a non-nil error. -/
def isErrBelowMinScore : GoError → Bool
  | .belowMinScore _ => true
  | .plain _ => false
  | .wrap _ _ => false
  | .foreign _ _ => false
  | .foreignWrap _ _ _ => false
  | .join _ _ _ => false

/-- What the `Is` method of a foreign error answers to a `*errBelowMinScore`
target; false for an error that has no `Is` method of its own. -/
def ownIsAnswer : GoError → Bool
  | .foreign _ answer => answer
  | .foreignWrap _ answer _ => answer
  | .plain _ => false
  | .wrap _ _ => false
  | .belowMinScore _ => false
  | .join _ _ _ => false

/-- The loop of `(*errBelowMinScore).Is`, entered with `ok = false` and a
non-nil `err`: each round sets `ok` from the type assertion and replaces `err`
by `errors.Unwrap(err)`; the loop goes on while `!ok && err != nil`. -/
def errBelowMinScore.IsLoop : GoError → Bool
  | .wrap _ inner => errBelowMinScore.IsLoop inner
  | .plain _ => false
  | .belowMinScore _ => true
  | .foreign _ _ => false
  | .foreignWrap _ _ inner => errBelowMinScore.IsLoop inner
  | .join _ _ _ => false

/-- The method `(*errBelowMinScore).Is`; the receiver is not used. -/
def errBelowMinScore.Is (err : Option GoError) : Bool :=
  match err with
  | none => false
  | some e => errBelowMinScore.IsLoop e

/-- The function `is` of the standard library behind `errors.Is` (Go 1.20 and
later), for a non-nil `err` and a non-nil `target` that is not
pointer-identical to any error reached from `err` (the comparison
`err == target` is then false in every round). An error with an `Is` method
answers through it: a `*errBelowMinScore` through `(*errBelowMinScore).Is`, a
foreign error through its recorded answer, which stands for a target of type
`*errBelowMinScore`. When the answer is not true the walk goes on with the
result of `Unwrap() error`, or with each error of `Unwrap() []error` in turn. -/
def errorsIsLoop (target : GoError) : GoError → Bool
  | .belowMinScore _ => errBelowMinScore.Is (some target)
  | .plain _ => false
  | .wrap _ inner => errorsIsLoop target inner
  | .foreign _ answer => answer
  | .foreignWrap _ answer inner => answer || errorsIsLoop target inner
  | .join _ first second => errorsIsLoop target first || errorsIsLoop target second

/-- The standard library function `errors.Is(err, target)`, for arguments that
share no pointer. -/
def errorsIs (err target : Option GoError) : Bool :=
  match err, target with
  | none, none => true
  | none, some _ => false
  | some _, none => false
  | some e, some t => errorsIsLoop t e

/-- The function `IsBelowMinScore` of errors.go; the target is the freshly
allocated `&errBelowMinScore{}`. -/
def IsBelowMinScore (err : Option GoError) : Bool :=
  errorsIs err (some (.belowMinScore ⟨Float64.zero, Float64.zero⟩))

/-! ## Response -/

/-- A `time.Time` value: its wall and monotonic clock words and the name of
its location (`none` for UTC). -/
structure Time where
  wall : Nat
  ext : Int
  loc : Option String
deriving DecidableEq

/-- A Go `[]string`: `none` is nil. -/
abbrev StringSlice := Option (List String)

/-- The elements of a slice; a nil slice has none. -/
def StringSlice.elems : StringSlice → List String
  | none => []
  | some xs => xs

/-- The builtin `len` on a slice. -/
def len (s : StringSlice) : Nat := s.elems.length

/-- The standard library function `strings.Join`. -/
def stringsJoin (elems : StringSlice) (sep : String) : String :=
  sep.intercalate elems.elems

/-- The struct `Response` of response.go. -/
structure Response where
  Success : Bool
  Score : Float64
  Action : String
  ChallengeTS : Time
  Hostname : String
  ErrorCodes : StringSlice
  err : Option GoError
deriving DecidableEq

/-- The zero value `Response{}`. -/
def Response.zeroValue : Response :=
  { Success := false, Score := Float64.zero, Action := "", ChallengeTS := ⟨0, 0, none⟩,
    Hostname := "", ErrorCodes := none, err := none }

/-- The `for _, hn := range hostnames` loop of `checkHostnames`, started with
`found = false`: the value of `found` when the loop ends. -/
def checkHostnames.found (hostname : String) : List String → Bool
  | [] => false
  | hn :: rest => if hostname = hn then true else checkHostnames.found hostname rest

/-- The function `checkHostnames` of response.go. -/
def checkHostnames (hostnames : StringSlice) (hostname : String) : Option GoError :=
  if len hostnames = 0 then none
  else if !checkHostnames.found hostname hostnames.elems then
    some (.plain ("recaptchav3: hostname '" ++ hostname ++ "' not in '"
      ++ stringsJoin hostnames "," ++ "'"))
  else none

/-- The method `Response.Verify` of response.go. -/
def Response.Verify (r : Response) (action : String) (minScore : Float64)
    (hostnames : StringSlice) : Option GoError :=
  match r.err with
  | some e => some e
  | none =>
    if len r.ErrorCodes ≠ 0 then
      some (.plain ("recaptchav3: " ++ stringsJoin r.ErrorCodes ","))
    else if !r.Success then
      some (.plain "recaptchav3: success = false")
    else
      match checkHostnames hostnames r.Hostname with
      | some e => some e
      | none =>
        if r.Action ≠ action then
          some (.plain ("recaptchav3: action '" ++ r.Action
            ++ "' does not equal expected '" ++ action ++ "'"))
        else if r.Score.lt minScore then
          some (.belowMinScore { Score := r.Score, MinScore := minScore })
        else none

/-! ## The check order of the specification -/

/-- The six checks of the policy evaluator, named as in the specification. -/
inductive Check where
  | transportError
  | remoteRejected
  | notSuccessful
  | hostnameNotAllowed
  | actionMismatch
  | belowMinimumScore
deriving DecidableEq

/-- Place of a check in the fixed order of the specification. -/
def Check.rank : Check → Nat
  | .transportError => 0
  | .remoteRejected => 1
  | .notSuccessful => 2
  | .hostnameNotAllowed => 3
  | .actionMismatch => 4
  | .belowMinimumScore => 5

/-- The specification's condition under which a check fails, read on the
response and the policy alone. -/
def Check.fails (r : Response) (action : String) (minScore : Float64)
    (hostnames : StringSlice) : Check → Prop
  | .transportError => r.err ≠ none
  | .remoteRejected => r.ErrorCodes.elems ≠ []
  | .notSuccessful => r.Success = false
  | .hostnameNotAllowed => hostnames.elems ≠ [] ∧ r.Hostname ∉ hostnames.elems
  | .actionMismatch => r.Action ≠ action
  | .belowMinimumScore => r.Score.lt minScore = true

/-- The error the specification attaches to a failing check. -/
def Check.error (r : Response) (action : String) (minScore : Float64)
    (hostnames : StringSlice) : Check → Option GoError
  | .transportError => r.err
  | .remoteRejected =>
    some (.plain ("recaptchav3: " ++ ",".intercalate r.ErrorCodes.elems))
  | .notSuccessful => some (.plain "recaptchav3: success = false")
  | .hostnameNotAllowed =>
    some (.plain ("recaptchav3: hostname '" ++ r.Hostname ++ "' not in '"
      ++ ",".intercalate hostnames.elems ++ "'"))
  | .actionMismatch =>
    some (.plain ("recaptchav3: action '" ++ r.Action ++ "' does not equal expected '"
      ++ action ++ "'"))
  | .belowMinimumScore => some (.belowMinScore { Score := r.Score, MinScore := minScore })

/-! ## Unwrap chains -/

/-- The errors met by unwrapping repeatedly with `errors.Unwrap`, the error
itself first. -/
def GoError.chain : GoError → List GoError
  | .wrap msg inner => .wrap msg inner :: GoError.chain inner
  | .plain msg => [.plain msg]
  | .belowMinScore e => [.belowMinScore e]
  | .foreign msg answer => [.foreign msg answer]
  | .foreignWrap msg answer inner => .foreignWrap msg answer inner :: GoError.chain inner
  | .join msg first second => [.join msg first second]

/-- The errors reached from an error through `Unwrap() error` and through
`Unwrap() []error`, the error itself first. -/
def GoError.tree : GoError → List GoError
  | .wrap msg inner => .wrap msg inner :: GoError.tree inner
  | .plain msg => [.plain msg]
  | .belowMinScore e => [.belowMinScore e]
  | .foreign msg answer => [.foreign msg answer]
  | .foreignWrap msg answer inner => .foreignWrap msg answer inner :: GoError.tree inner
  | .join msg first second =>
    .join msg first second :: (GoError.tree first ++ GoError.tree second)

/-- An error built with `errors.New`, `fmt.Errorf` with at most one `%w` verb
and `&errBelowMinScore{}` only: no error with an `Is` method of its own and no
error with an `Unwrap() []error` method is reached from it. -/
def GoError.foreignFree : GoError → Bool
  | .wrap _ inner => GoError.foreignFree inner
  | .plain _ => true
  | .belowMinScore _ => true
  | .foreign _ _ => false
  | .foreignWrap _ _ _ => false
  | .join _ _ _ => false

/-- An error wrapped in one layer per message, the first message outermost:
each layer is what `fmt.Errorf` with one `%w` verb returns. -/
def wrapLayers : List String → GoError → GoError
  | [], e => e
  | msg :: rest, e => .wrap msg (wrapLayers rest e)

/-! ## Values of the test suite -/

/-- The constant `defaultAction` of response_test.go. -/
def defaultAction : String := "homepage"

/-- The constant `defaultMinScore` of response_test.go, `0.5`. -/
def defaultMinScore : Float64 := Float64.half

/-- The allow-list used in response_test.go. -/
def testHostnames : StringSlice := some ["example.com", "www.example.com"]

/-- The response of `TestResponse_Verify_SuccessWithHostnames`. -/
def acceptedResponse : Response :=
  { Response.zeroValue with
    Success := true, Action := defaultAction, Hostname := "example.com", Score := Float64.one }

/-- A response failing every check after the transport one: two error codes,
`Success` false, a foreign hostname, a foreign action and a score of `0.4`. -/
def rejectedResponse : Response :=
  { Response.zeroValue with
    ErrorCodes := some ["missing-input-secret", "missing-input-response"],
    Action := "homepage-fake", Hostname := "fake.example.com", Score := Float64.fourTenths }

/-- The standard library error `io.EOF`. -/
def ioEOF : GoError := .plain "EOF"

/-- An error of a caller whose `Is` method returns true whatever the target. -/
def alwaysError : GoError := .foreign "always" true

/-- The error that `errors.Join` returns for `io.EOF` and a zero
`*errBelowMinScore`, with `0` for what the `%g` verb prints for the zero score. -/
def joinedError : GoError :=
  .join "EOF\nrecaptchav3: score '0' less than '0'" ioEOF
    (.belowMinScore ⟨Float64.zero, Float64.zero⟩)

/-! ## The request body: `url.Values` and `url.QueryEscape` -/

/-- The bytes of a character in a Go string, its UTF-8 encoding. -/
def utf8Bytes (c : Char) : List Nat :=
  let n := c.toNat
  if n < 0x80 then [n]
  else if n < 0x800 then [0xC0 + n / 64, 0x80 + n % 64]
  else if n < 0x10000 then [0xE0 + n / 4096, 0x80 + n / 64 % 64, 0x80 + n % 64]
  else [0xF0 + n / 262144, 0x80 + n / 4096 % 64, 0x80 + n / 64 % 64, 0x80 + n % 64]

/-- The bytes of a Go string. -/
def stringBytes (s : String) : List Nat := s.data.flatMap utf8Bytes

/-- The standard library function `shouldEscape` of net/url in the mode
`encodeQueryComponent`: only letters, digits and `-`, `_`, `.`, `~` are kept. -/
def shouldEscape (c : Nat) : Bool :=
  if ('a'.toNat ≤ c ∧ c ≤ 'z'.toNat) ∨ ('A'.toNat ≤ c ∧ c ≤ 'Z'.toNat)
      ∨ ('0'.toNat ≤ c ∧ c ≤ '9'.toNat) then false
  else if c = '-'.toNat ∨ c = '_'.toNat ∨ c = '.'.toNat ∨ c = '~'.toNat then false
  else true

/-- The table `upperhex` of net/url, for an index below 16. -/
def upperhex (n : Nat) : Char :=
  if n < 10 then Char.ofNat ('0'.toNat + n) else Char.ofNat ('A'.toNat + (n - 10))

/-- What `escape` of net/url writes for one byte in the mode
`encodeQueryComponent`: `+` for a space, `%XX` for a byte to escape, the byte
itself otherwise. -/
def escapeByte (c : Nat) : List Char :=
  if c = ' '.toNat then ['+']
  else if shouldEscape c then ['%', upperhex (c / 16), upperhex (c % 16)]
  else [Char.ofNat c]

/-- The standard library function `url.QueryEscape`. -/
def urlQueryEscape (s : String) : String :=
  String.mk ((stringBytes s).flatMap escapeByte)

/-- A `url.Values`, the map from a key to its list of values, as the list of
its entries; `Set` keeps the keys distinct. -/
structure Values where
  entries : List (String × List String)
deriving DecidableEq

/-- The empty map, `make(url.Values, 3)`. -/
def Values.make : Values := ⟨[]⟩

/-- The method `Values.Set`: the key gets the one value, replacing what it had. -/
def Values.Set (v : Values) (key value : String) : Values :=
  ⟨(key, [value]) :: v.entries.filter (fun kv => decide (kv.1 ≠ key))⟩

/-- The values of a key, `v[k]`. -/
def Values.get (v : Values) (key : String) : List String :=
  match v.entries.lookup key with
  | some vs => vs
  | none => []

/-- The lexicographic order on byte sequences. -/
def bytesLess : List Nat → List Nat → Bool
  | _, [] => false
  | [], _ :: _ => true
  | x :: xs, y :: ys => if x < y then true else if y < x then false else bytesLess xs ys

/-- The Go comparison `a < b` on strings, byte by byte. -/
def stringLess (a b : String) : Bool := bytesLess (stringBytes a) (stringBytes b)

/-- Insertion of a key in a list sorted by the order of Go strings. -/
def sortStrings.insert (k : String) : List String → List String
  | [] => [k]
  | x :: rest => if stringLess k x then k :: x :: rest else x :: sortStrings.insert k rest

/-- The standard library function `sort.Strings`, on the list of keys. -/
def sortStrings : List String → List String
  | [] => []
  | k :: rest => sortStrings.insert k (sortStrings rest)

/-- The inner loop of `Values.Encode`, over the values of one key: an `&`
when the buffer is not empty, then the escaped key, `=` and the escaped value. -/
def Values.Encode.values (keyEscaped : String) : List String → String → String
  | [], buf => buf
  | x :: rest, buf =>
    let buf1 := if buf.length > 0 then buf ++ "&" else buf
    Values.Encode.values keyEscaped rest (buf1 ++ keyEscaped ++ "=" ++ urlQueryEscape x)

/-- The outer loop of `Values.Encode`, over the sorted keys. -/
def Values.Encode.keys (v : Values) : List String → String → String
  | [], buf => buf
  | k :: rest, buf =>
    Values.Encode.keys v rest (Values.Encode.values (urlQueryEscape k) (v.get k) buf)

/-- The method `Values.Encode`: the keys are sorted, then written with their
values as `key=value` joined by `&`. -/
def Values.Encode (v : Values) : String :=
  Values.Encode.keys v (sortStrings (v.entries.map Prod.fst)) ""

/-- The form data `siteVerify` builds from its arguments. -/
def siteVerify.data (secretKey captchaResponse remoteIP : String) : Values :=
  let data := Values.make
  let data := data.Set "secret" secretKey
  let data := data.Set "response" captchaResponse
  if remoteIP ≠ "" then data.Set "remoteip" remoteIP else data

/-! ## The exchange with the remote service -/

/-- A `context.Context` value that is not nil; the nil context is `none`. -/
structure Context where
  id : Nat
deriving DecidableEq

/-- What `siteVerify` puts in a `*http.Request`. -/
structure Request where
  ctx : Option Context
  Method : String
  URL : String
  Body : String
  Header : List (String × String)
deriving DecidableEq

/-- What `siteVerify` reads from a `*http.Response`: its status line, its
status code, and what `ioutil.ReadAll(resp.Body)` returns, the bytes read and
the read error. -/
structure HTTPResponse where
  Status : String
  StatusCode : Int
  Body : String × Option GoError

/-- The world outside the package, as `siteVerify` meets it: the error of
`http.NewRequestWithContext` (nil when the request can be built), the result
of `http.DefaultClient.Do`, and the decoder `json.Unmarshal`, which gets the
body and the value to fill and returns the filled value and its error. -/
structure Env where
  NewRequestError : Option Context → String → String → Option GoError
  Do : Request → Except GoError HTTPResponse
  Unmarshal : String → Response → Response × Option GoError

/-- The constant `http.StatusOK`. -/
def httpStatusOK : Int := 200

/-- The standard library function `http.NewRequestWithContext`: an error, or
a request holding the context, the method, the URL and the body. -/
def httpNewRequestWithContext (env : Env) (ctx : Option Context) (method url body : String) :
    Except GoError Request :=
  match env.NewRequestError ctx method url with
  | some err => .error err
  | none => .ok { ctx := ctx, Method := method, URL := url, Body := body, Header := [] }

/-- The method `Header.Set` on the header of a request. -/
def Request.setHeader (req : Request) (key value : String) : Request :=
  { req with Header := (key, value) :: req.Header.filter (fun kv => decide (kv.1 ≠ key)) }

/-- The call `json.Unmarshal(b, &obj)`: the decoder writes exported fields
only, so the field `err` of `obj` keeps its value. -/
def jsonUnmarshal (env : Env) (b : String) (obj : Response) : Response × Option GoError :=
  let out := env.Unmarshal b obj
  ({ out.1 with err := obj.err }, out.2)

/-- The function `siteVerify` of siteverify.go. The deferred
`resp.Body.Close()` does not change the result and is left out. -/
def siteVerify (env : Env) (fmtG : Float64 → String) (ctx : Option Context)
    (secretKey captchaResponse remoteIP postURL : String) : Response :=
  let data := siteVerify.data secretKey captchaResponse remoteIP
  match httpNewRequestWithContext env ctx "POST" postURL data.Encode with
  | .error err =>
    { Response.zeroValue with err := some (.wrap ("recaptchav3: " ++ err.Error fmtG) err) }
  | .ok req =>
    let req1 := req.setHeader "Content-Type" "application/x-www-form-urlencoded"
    match env.Do req1 with
    | .error err =>
      { Response.zeroValue with err := some (.wrap ("recaptchav3: " ++ err.Error fmtG) err) }
    | .ok resp =>
      match resp.Body with
      | (_, some err) =>
        { Response.zeroValue with
          err := some (.wrap ("recaptchav3: read body: " ++ err.Error fmtG) err) }
      | (b, none) =>
        if resp.StatusCode ≠ httpStatusOK then
          { Response.zeroValue with
            err := some (.plain ("recaptchav3: http: " ++ resp.Status ++ ", body: '"
              ++ b ++ "'")) }
        else
          match jsonUnmarshal env b Response.zeroValue with
          | (_, some err) =>
            { Response.zeroValue with
              err := some (.wrap ("recaptchav3: error decoding json: " ++ err.Error fmtG
                ++ ", body: '" ++ b ++ "'") err) }
          | (obj, none) => obj

/-- The function `SiteVerify` of siteverify.go. -/
def SiteVerify (env : Env) (fmtG : Float64 → String) (ctx : Option Context)
    (secretKey captchaResponse remoteIP : String) : Response :=
  siteVerify env fmtG ctx secretKey captchaResponse remoteIP
    "https://www.google.com/recaptcha/api/siteverify"

/-! ## Words of the specification about the exchange -/

/-- The request `siteVerify` hands to `http.DefaultClient.Do` when the request
can be built: a POST to the URL with the encoded form as body and the form
content type. -/
def siteVerify.request (ctx : Option Context)
    (secretKey captchaResponse remoteIP postURL : String) : Request :=
  Request.setHeader
    { ctx := ctx, Method := "POST", URL := postURL,
      Body := (siteVerify.data secretKey captchaResponse remoteIP).Encode, Header := [] }
    "Content-Type" "application/x-www-form-urlencoded"

/-- The remote service replied: the request was built and dispatched, and
`Do` returned the reply `resp`. -/
def Replied (env : Env) (ctx : Option Context)
    (secretKey captchaResponse remoteIP postURL : String) (resp : HTTPResponse) : Prop :=
  env.NewRequestError ctx "POST" postURL = none
    ∧ env.Do (siteVerify.request ctx secretKey captchaResponse remoteIP postURL) = .ok resp

/-- The request could not be built, or could not be dispatched, because of
the error `e`. -/
def DispatchFails (env : Env) (ctx : Option Context)
    (secretKey captchaResponse remoteIP postURL : String) (e : GoError) : Prop :=
  env.NewRequestError ctx "POST" postURL = some e
    ∨ (env.NewRequestError ctx "POST" postURL = none
        ∧ env.Do (siteVerify.request ctx secretKey captchaResponse remoteIP postURL) = .error e)

/-- The request body in the words of the specification: the fields in
alphabetical order, `remoteip` only for a remote address that is not empty,
each value escaped. -/
def specFormBody (secretKey captchaResponse remoteIP : String) : String :=
  if remoteIP = "" then
    "response=" ++ urlQueryEscape captchaResponse ++ "&secret=" ++ urlQueryEscape secretKey
  else
    "remoteip=" ++ urlQueryEscape remoteIP ++ "&response="
      ++ urlQueryEscape captchaResponse ++ "&secret=" ++ urlQueryEscape secretKey

/-- A transport that shows the body it is handed: every request can be built,
and `Do` fails with the body of the request as the text of its error. -/
def echoBodyEnv : Env :=
  { NewRequestError := fun _ _ _ => none,
    Do := fun req => .error (.plain req.Body),
    Unmarshal := fun _ obj => (obj, none) }

/-- A success status in the words of the specification: 2xx. -/
def is2xx (statusCode : Int) : Bool := decide (200 ≤ statusCode ∧ statusCode ≤ 299)

/-! ## Values of the test suite for the exchange -/

/-- The constant `0.9` (nearest binary64 value). -/
def Float64.nineTenths : Float64 := ⟨0x3FECCCCCCCCCCCCD, by decide⟩

/-- The body written by `newPOSTEchoServer`. -/
def echoBody : String := "\x7b\"success\":true,\"score\":0.9\x7d"

/-- What `json.Unmarshal` does on the bodies of the test suite: the body of
`newPOSTEchoServer` sets `Success` and `Score`, any other text is rejected
with the syntax error of `TestSiteVerify_BadJSONResponse`. -/
def testUnmarshal (b : String) (obj : Response) : Response × Option GoError :=
  if b = echoBody then ({ obj with Success := true, Score := Float64.nineTenths }, none)
  else (obj, some (.plain "invalid character 'b' looking for beginning of value"))

/-- A server that answers every request with the given reply; a nil context
is refused by `http.NewRequestWithContext`. -/
def replyEnv (resp : HTTPResponse) : Env :=
  { NewRequestError := fun ctx _ _ =>
      match ctx with
      | none => some (.plain "net/http: nil Context")
      | some _ => none,
    Do := fun _ => .ok resp,
    Unmarshal := testUnmarshal }

/-- A transport on which `Do` fails with the given error. -/
def failEnv (e : GoError) : Env :=
  { NewRequestError := fun ctx _ _ =>
      match ctx with
      | none => some (.plain "net/http: nil Context")
      | some _ => none,
    Do := fun _ => .error e,
    Unmarshal := testUnmarshal }

/-- The context `context.Background()`. -/
def backgroundCtx : Option Context := some ⟨0⟩

/-- The URL of a test server. -/
def testURL : String := "http://127.0.0.1:8080"

/-- The error of a request whose deadline passed, as `Do` returns it: a
`*url.Error` around `context.DeadlineExceeded`. -/
def deadlineError : GoError :=
  .wrap "Post http://127.0.0.1:8080: context deadline exceeded"
    (.plain "context deadline exceeded")

/-- The error of a request whose context was canceled, as `Do` returns it: a
`*url.Error` around `context.Canceled`. -/
def canceledError : GoError :=
  .wrap "Post http://127.0.0.1:8080: context canceled" (.plain "context canceled")

/-- The standard library error `io.ErrUnexpectedEOF`. -/
def ioErrUnexpectedEOF : GoError := .plain "unexpected EOF"

/-! ## The JSON form of a reply: `json.Marshal` and `json.Unmarshal` on `Response` -/

theorem len_eq_zero_iff (s : StringSlice) : len s = 0 ↔ s.elems = [] := by
  simp [len]

theorem checkHostnames_found_iff (hostname : String) (hns : List String) :
    checkHostnames.found hostname hns = true ↔ hostname ∈ hns := by
  induction hns with
  | nil => simp [checkHostnames.found]
  | cons hn rest ih =>
    by_cases h : hostname = hn
    · simp [checkHostnames.found, h]
    · simp [checkHostnames.found, h, ih]

theorem checkHostnames_eq_none_iff (hostnames : StringSlice) (hostname : String) :
    checkHostnames hostnames hostname = none ↔
      hostnames.elems = [] ∨ hostname ∈ hostnames.elems := by
  unfold checkHostnames
  by_cases h0 : len hostnames = 0
  · simp [h0, (len_eq_zero_iff hostnames).1 h0]
  · have hne : hostnames.elems ≠ [] := fun h => h0 ((len_eq_zero_iff hostnames).2 h)
    by_cases hm : hostname ∈ hostnames.elems
    · simp [h0, hm, (checkHostnames_found_iff hostname hostnames.elems).2 hm]
    · have hf : checkHostnames.found hostname hostnames.elems = false := by
        cases hc : checkHostnames.found hostname hostnames.elems with
        | false => rfl
        | true => exact absurd ((checkHostnames_found_iff _ _).1 hc) hm
      simp [h0, hm, hf, hne]

theorem checkHostnames_of_not_mem (hostnames : StringSlice) (hostname : String)
    (hne : hostnames.elems ≠ []) (hm : hostname ∉ hostnames.elems) :
    checkHostnames hostnames hostname =
      some (.plain ("recaptchav3: hostname '" ++ hostname ++ "' not in '"
        ++ ",".intercalate hostnames.elems ++ "'")) := by
  have h0 : len hostnames ≠ 0 := fun h => hne ((len_eq_zero_iff hostnames).1 h)
  have hf : checkHostnames.found hostname hostnames.elems = false := by
    cases hc : checkHostnames.found hostname hostnames.elems with
    | false => rfl
    | true => exact absurd ((checkHostnames_found_iff _ _).1 hc) hm
  simp [checkHostnames, h0, hf, stringsJoin]

/-- When the four checks before the action check pass, Verify is decided by
the action and the score alone. -/
theorem verify_after_hostname_check (r : Response) (action : String) (minScore : Float64)
    (hostnames : StringSlice) (herr : r.err = none) (hcodes : r.ErrorCodes.elems = [])
    (hsucc : r.Success = true)
    (hhost : hostnames.elems = [] ∨ r.Hostname ∈ hostnames.elems) :
    r.Verify action minScore hostnames =
      if r.Action ≠ action then
        some (.plain ("recaptchav3: action '" ++ r.Action
          ++ "' does not equal expected '" ++ action ++ "'"))
      else if r.Score.lt minScore then
        some (.belowMinScore { Score := r.Score, MinScore := minScore })
      else none := by
  have hl : len r.ErrorCodes = 0 := (len_eq_zero_iff _).2 hcodes
  have hh : checkHostnames hostnames r.Hostname = none :=
    (checkHostnames_eq_none_iff _ _).2 hhost
  simp [Response.Verify, herr, hl, hsucc, hh]

/-! ## Lemmas on float64 comparison -/

theorem Float64.lt_irrefl (x : Float64) : x.lt x = false := by
  simp [Float64.lt]

theorem Float64.lt_eq_false_of_eq (x y : Float64) (h : x.eq y = true) : x.lt y = false := by
  simp only [Float64.eq, Bool.and_eq_true, decide_eq_true_eq] at h
  simp [Float64.lt, h.2]

/-- A NaN score is not less than any minimum. -/
theorem Float64.nan_lt (y : Float64) : Float64.nan.lt y = false := by
  have h : Float64.nan.isNaN = true := by decide
  simp [Float64.lt, h]

/-! ## Lemmas on unwrap chains -/

/-- One round of the loop of `(*errBelowMinScore).Is`: the type assertion sets
`ok`, `errors.Unwrap` gives the next error, and the loop goes on only while
`ok` is false and the next error is not nil. -/
theorem IsLoop_round (err : GoError) :
    errBelowMinScore.IsLoop err =
      if isErrBelowMinScore err then true
      else match errorsUnwrap err with
        | none => false
        | some next => errBelowMinScore.IsLoop next := by
  cases err <;> simp [errBelowMinScore.IsLoop, isErrBelowMinScore, errorsUnwrap]

/-- The chain of an error is the error followed by the chain of what
`errors.Unwrap` returns. -/
theorem chain_unwrap (err : GoError) :
    err.chain = err :: (match errorsUnwrap err with
      | none => []
      | some next => next.chain) := by
  cases err <;> simp [GoError.chain, errorsUnwrap]

/-- The response of `TestResponse_Verify_SuccessWithHostnames` is accepted. -/
theorem acceptedResponse_verify :
    acceptedResponse.Verify defaultAction defaultMinScore testHostnames = none := by
  decide

theorem IsLoop_eq_true_iff (err : GoError) :
    errBelowMinScore.IsLoop err = true ↔ ∃ x ∈ err.chain, isErrBelowMinScore x = true := by
  induction err with
  | plain msg => simp [errBelowMinScore.IsLoop, GoError.chain, isErrBelowMinScore]
  | wrap msg inner ih =>
    simp [errBelowMinScore.IsLoop, GoError.chain, isErrBelowMinScore, ih]
  | belowMinScore e => simp [errBelowMinScore.IsLoop, GoError.chain, isErrBelowMinScore]
  | foreign msg answer => simp [errBelowMinScore.IsLoop, GoError.chain, isErrBelowMinScore]
  | foreignWrap msg answer inner ih =>
    simp [errBelowMinScore.IsLoop, GoError.chain, isErrBelowMinScore, ih]
  | join msg first second _ _ =>
    simp [errBelowMinScore.IsLoop, GoError.chain, isErrBelowMinScore]

/-- On an error without foreign and joined errors, `errors.Is` with a
`*errBelowMinScore` target follows the same chain as `(*errBelowMinScore).Is`. -/
theorem errorsIsLoop_belowMinScore_target (t : errBelowMinScore) (err : GoError)
    (hfree : err.foreignFree = true) :
    errorsIsLoop (.belowMinScore t) err = errBelowMinScore.IsLoop err := by
  induction err with
  | plain msg => rfl
  | wrap msg inner ih =>
    simpa [errorsIsLoop, errBelowMinScore.IsLoop] using ih (by simpa [GoError.foreignFree] using hfree)
  | belowMinScore e => rfl
  | foreign msg answer => simp [GoError.foreignFree] at hfree
  | foreignWrap msg answer inner _ => simp [GoError.foreignFree] at hfree
  | join msg first second _ _ => simp [GoError.foreignFree] at hfree

/-- The answer of `errors.Is` for a `*errBelowMinScore` target: true exactly
when an error reached from `err` is a `*errBelowMinScore` or has an `Is`
method of its own that answers true. -/
theorem errorsIsLoop_eq_true_iff (t : errBelowMinScore) (err : GoError) :
    errorsIsLoop (.belowMinScore t) err = true ↔
      ∃ x ∈ err.tree, isErrBelowMinScore x = true ∨ ownIsAnswer x = true := by
  induction err with
  | plain msg => simp [errorsIsLoop, GoError.tree, isErrBelowMinScore, ownIsAnswer]
  | wrap msg inner ih =>
    simp [errorsIsLoop, GoError.tree, isErrBelowMinScore, ownIsAnswer, ih]
  | belowMinScore e =>
    simp [errorsIsLoop, GoError.tree, isErrBelowMinScore, ownIsAnswer, errBelowMinScore.Is,
      errBelowMinScore.IsLoop]
  | foreign msg answer => simp [errorsIsLoop, GoError.tree, isErrBelowMinScore, ownIsAnswer]
  | foreignWrap msg answer inner ih =>
    simp [errorsIsLoop, GoError.tree, isErrBelowMinScore, ownIsAnswer, ih]
  | join msg first second ih1 ih2 =>
    simp [errorsIsLoop, GoError.tree, isErrBelowMinScore, ownIsAnswer, ih1, ih2,
      or_and_right, exists_or]

theorem IsBelowMinScore_some_iff (err : GoError) :
    IsBelowMinScore (some err) = true ↔
      ∃ x ∈ err.tree, isErrBelowMinScore x = true ∨ ownIsAnswer x = true := by
  rw [← errorsIsLoop_eq_true_iff ⟨Float64.zero, Float64.zero⟩]
  simp [IsBelowMinScore, errorsIs]

theorem mem_tree_wrapLayers (layers : List String) (e : GoError) :
    e ∈ (wrapLayers layers e).tree := by
  induction layers with
  | nil => cases e <;> simp [wrapLayers, GoError.tree]
  | cons msg rest ih => simp [wrapLayers, GoError.tree, ih]

/-! ## Claims -/

/-- C1: Verify reports the first failing check in the fixed order transport
error, error codes, success = false, hostname, action, score: when a check
fails and every check placed before it passes, the result is the error of
that check, whatever the checks placed after it would say. -/
theorem verify_reports_first_failing_check (r : Response) (action : String)
    (minScore : Float64) (hostnames : StringSlice) (c : Check)
    (hfail : c.fails r action minScore hostnames)
    (hearlier : ∀ d : Check, d.rank < c.rank → ¬ d.fails r action minScore hostnames) :
    r.Verify action minScore hostnames = c.error r action minScore hostnames
      ∧ r.Verify action minScore hostnames ≠ none := by
  have e0 := hearlier .transportError
  have e1 := hearlier .remoteRejected
  have e2 := hearlier .notSuccessful
  have e3 := hearlier .hostnameNotAllowed
  have e4 := hearlier .actionMismatch
  cases c <;> simp only [Check.rank, Check.fails, Check.error] at *
  · cases he : r.err with
    | none => exact absurd he hfail
    | some e => simp [Response.Verify, he]
  · have h0 : r.err = none := not_not.1 (e0 (by decide))
    have hl : len r.ErrorCodes ≠ 0 := fun h => hfail ((len_eq_zero_iff _).1 h)
    simp [Response.Verify, h0, hl, stringsJoin]
  · have h0 : r.err = none := not_not.1 (e0 (by decide))
    have hl : len r.ErrorCodes = 0 := (len_eq_zero_iff _).2 (not_not.1 (e1 (by decide)))
    simp [Response.Verify, h0, hl, hfail]
  · have h0 : r.err = none := not_not.1 (e0 (by decide))
    have hl : len r.ErrorCodes = 0 := (len_eq_zero_iff _).2 (not_not.1 (e1 (by decide)))
    have hs : r.Success = true := by simpa using e2 (by decide)
    simp [Response.Verify, h0, hl, hs, checkHostnames_of_not_mem _ _ hfail.1 hfail.2]
  · have h0 : r.err = none := not_not.1 (e0 (by decide))
    have hl : len r.ErrorCodes = 0 := (len_eq_zero_iff _).2 (not_not.1 (e1 (by decide)))
    have hs : r.Success = true := by simpa using e2 (by decide)
    have hh : checkHostnames hostnames r.Hostname = none :=
      (checkHostnames_eq_none_iff _ _).2 (by
        have := e3 (by decide)
        by_cases hne : hostnames.elems = []
        · exact Or.inl hne
        · exact Or.inr (by_contra fun hm => this ⟨hne, hm⟩))
    simp [Response.Verify, h0, hl, hs, hh, hfail]
  · have h0 : r.err = none := not_not.1 (e0 (by decide))
    have hl : len r.ErrorCodes = 0 := (len_eq_zero_iff _).2 (not_not.1 (e1 (by decide)))
    have hs : r.Success = true := by simpa using e2 (by decide)
    have hh : checkHostnames hostnames r.Hostname = none :=
      (checkHostnames_eq_none_iff _ _).2 (by
        have := e3 (by decide)
        by_cases hne : hostnames.elems = []
        · exact Or.inl hne
        · exact Or.inr (by_contra fun hm => this ⟨hne, hm⟩))
    have ha : r.Action = action := not_not.1 (e4 (by decide))
    simp [Response.Verify, h0, hl, hs, hh, ha, hfail]

/-- Witness of C1: a response with error codes that also fails the success,
hostname, action and score checks is reported as rejected by the remote
service. -/
theorem verify_reports_first_failing_check_witness :
    Check.remoteRejected.fails rejectedResponse defaultAction defaultMinScore testHostnames
      ∧ Check.notSuccessful.fails rejectedResponse defaultAction defaultMinScore testHostnames
      ∧ Check.belowMinimumScore.fails rejectedResponse defaultAction defaultMinScore testHostnames
      ∧ rejectedResponse.Verify defaultAction defaultMinScore testHostnames
          = some (.plain "recaptchav3: missing-input-secret,missing-input-response") :=
  ⟨by simp [Check.fails, rejectedResponse, StringSlice.elems],
   by simp [Check.fails, rejectedResponse, Response.zeroValue],
   (by decide : rejectedResponse.Score.lt defaultMinScore = true),
   (verify_reports_first_failing_check rejectedResponse defaultAction defaultMinScore
      testHostnames .remoteRejected
      (by simp [Check.fails, rejectedResponse, StringSlice.elems])
      (by
        intro d hd
        cases d <;> simp [Check.rank] at hd
        simp [Check.fails, rejectedResponse, Response.zeroValue])).1.trans (by decide)⟩

/-- C2: Verify returns nil exactly when there is no transport error, no error
code, Success is true, the allow-list is empty or holds the hostname, the
action is the expected one and the score is not less than the minimum. -/
theorem verify_eq_nil_iff (r : Response) (action : String) (minScore : Float64)
    (hostnames : StringSlice) :
    r.Verify action minScore hostnames = none ↔
      r.err = none ∧ r.ErrorCodes.elems = [] ∧ r.Success = true
        ∧ (hostnames.elems = [] ∨ r.Hostname ∈ hostnames.elems)
        ∧ r.Action = action ∧ r.Score.lt minScore = false := by
  rw [← checkHostnames_eq_none_iff, ← len_eq_zero_iff]
  unfold Response.Verify
  cases he : r.err with
  | some e => simp
  | none =>
    by_cases hl : len r.ErrorCodes = 0
    · cases hs : r.Success with
      | false => simp [hl]
      | true =>
        cases hh : checkHostnames hostnames r.Hostname with
        | some e => simp [hl]
        | none =>
          by_cases ha : r.Action = action
          · cases hlt : r.Score.lt minScore <;> simp [hl, ha]
          · simp [hl, ha]
    · simp [hl]

/-- C3: a response with a transport error makes Verify return that very
error, with its message, whatever the other fields and the policy are. -/
theorem verify_propagates_transport_error (r : Response) (e : GoError) (action : String)
    (minScore : Float64) (hostnames : StringSlice) (fmtG : Float64 → String)
    (herr : r.err = some e) :
    r.Verify action minScore hostnames = some e
      ∧ (r.Verify action minScore hostnames).map (GoError.Error fmtG) = some (e.Error fmtG) := by
  simp [Response.Verify, herr]

/-- Witness of C3: the response of `TestResponse_Verify_RequestError`, here
with every other field set as in a rejected reply. -/
theorem verify_propagates_transport_error_witness :
    ({ rejectedResponse with err := some (.plain "recaptchav3: an error occurred") }
        : Response).Verify defaultAction defaultMinScore none
      = some (.plain "recaptchav3: an error occurred") :=
  (verify_propagates_transport_error
    { rejectedResponse with err := some (.plain "recaptchav3: an error occurred") }
    (.plain "recaptchav3: an error occurred") defaultAction defaultMinScore none
    (fun _ => "") rfl).1

/-- C4: with no transport error and at least one error code, Verify fails
with the message "recaptchav3: " followed by the codes joined with "," in
their order, whatever the policy is. -/
theorem verify_error_codes_message (r : Response) (action : String) (minScore : Float64)
    (hostnames : StringSlice) (fmtG : Float64 → String)
    (herr : r.err = none) (hcodes : r.ErrorCodes.elems ≠ []) :
    ∃ e, r.Verify action minScore hostnames = some e
      ∧ e.Error fmtG = "recaptchav3: " ++ ",".intercalate r.ErrorCodes.elems := by
  have hl : len r.ErrorCodes ≠ 0 := fun h => hcodes ((len_eq_zero_iff _).1 h)
  exact ⟨_, by simp [Response.Verify, herr, hl]; rfl, by simp [GoError.Error, stringsJoin]⟩

/-- Witness of C4: the two codes of `TestResponse_Verify_ErrorCodesMultiple`
give "recaptchav3: missing-input-secret,missing-input-response". -/
theorem verify_error_codes_message_witness :
    ∃ e, rejectedResponse.Verify defaultAction defaultMinScore none = some e
      ∧ e.Error (fun _ => "") = "recaptchav3: missing-input-secret,missing-input-response" :=
  verify_error_codes_message rejectedResponse defaultAction defaultMinScore none (fun _ => "")
    rfl (by simp [rejectedResponse, StringSlice.elems])

/-- C5: with no transport error, no error code and Success false, Verify
fails with the message "recaptchav3: success = false", whatever the policy
is; the response is not accepted. -/
theorem verify_success_false (r : Response) (action : String) (minScore : Float64)
    (hostnames : StringSlice) (fmtG : Float64 → String)
    (herr : r.err = none) (hcodes : r.ErrorCodes.elems = []) (hsucc : r.Success = false) :
    r.Verify action minScore hostnames = some (.plain "recaptchav3: success = false")
      ∧ (r.Verify action minScore hostnames).map (GoError.Error fmtG)
          = some "recaptchav3: success = false"
      ∧ r.Verify action minScore hostnames ≠ none := by
  have hl : len r.ErrorCodes = 0 := (len_eq_zero_iff _).2 hcodes
  simp [Response.Verify, herr, hl, hsucc, GoError.Error]

/-- Witness of C5: the zero-value Response is rejected with
"recaptchav3: success = false". -/
theorem verify_success_false_witness :
    Response.zeroValue.Verify defaultAction defaultMinScore none
      = some (.plain "recaptchav3: success = false") :=
  (verify_success_false Response.zeroValue defaultAction defaultMinScore none (fun _ => "")
    rfl rfl rfl).1

/-- C6: with an empty or nil allow-list, checkHostnames returns nil for
every hostname and the result of Verify is the same whatever hostname the
response carries. -/
theorem verify_empty_hostnames (hostnames : StringSlice) (hempty : len hostnames = 0) :
    (∀ hostname : String, checkHostnames hostnames hostname = none)
      ∧ ∀ (r : Response) (hostname : String) (action : String) (minScore : Float64),
          ({ r with Hostname := hostname } : Response).Verify action minScore hostnames
            = r.Verify action minScore hostnames := by
  have hc : ∀ hostname : String, checkHostnames hostnames hostname = none := by
    intro hostname
    simp [checkHostnames, hempty]
  refine ⟨hc, ?_⟩
  intro r hostname action minScore
  simp [Response.Verify, hc]

/-- Witness of C6: the nil list and the empty list accept the hostname of
`TestResponse_Verify_SuccessNilHostnames` and of
`TestResponse_Verify_SuccessEmptyHostnames`. -/
theorem verify_empty_hostnames_witness :
    checkHostnames none "example.com" = none ∧ checkHostnames (some []) "example.com" = none
      ∧ acceptedResponse.Verify defaultAction defaultMinScore (some []) = none :=
  ⟨(verify_empty_hostnames none rfl).1 "example.com",
   (verify_empty_hostnames (some []) rfl).1 "example.com",
   by decide⟩

/-- C7: with no transport error, no error code, Success true and a non-empty
allow-list that does not hold the hostname, Verify fails with the message
"recaptchav3: hostname '<hostname>' not in '<list joined with ",">'",
whatever the action and the minimum score are; a hostname held by the list
passes the hostname check. -/
theorem verify_hostname_not_allowed (r : Response) (hostnames : StringSlice) :
    (r.err = none → r.ErrorCodes.elems = [] → r.Success = true → hostnames.elems ≠ [] →
        r.Hostname ∉ hostnames.elems →
        ∀ (action : String) (minScore : Float64) (fmtG : Float64 → String),
          (r.Verify action minScore hostnames).map (GoError.Error fmtG)
            = some ("recaptchav3: hostname '" ++ r.Hostname ++ "' not in '"
                ++ ",".intercalate hostnames.elems ++ "'"))
      ∧ (r.Hostname ∈ hostnames.elems → checkHostnames hostnames r.Hostname = none) := by
  constructor
  · intro herr hcodes hsucc hne hmem action minScore fmtG
    have hl : len r.ErrorCodes = 0 := (len_eq_zero_iff _).2 hcodes
    simp [Response.Verify, herr, hl, hsucc, checkHostnames_of_not_mem _ _ hne hmem,
      GoError.Error]
  · intro hmem
    exact (checkHostnames_eq_none_iff _ _).2 (Or.inr hmem)

/-- Witness of C7: the response of `TestResponse_Verify_HostnameMismatch` is
rejected with the message of that test, and "example.com" passes. -/
theorem verify_hostname_not_allowed_witness :
    (({ acceptedResponse with Hostname := "fake.example.com" } : Response).Verify
        defaultAction defaultMinScore testHostnames).map (GoError.Error fun _ => "")
      = some "recaptchav3: hostname 'fake.example.com' not in 'example.com,www.example.com'"
      ∧ checkHostnames testHostnames acceptedResponse.Hostname = none :=
  ⟨((verify_hostname_not_allowed { acceptedResponse with Hostname := "fake.example.com" }
      testHostnames).1 rfl rfl rfl (by decide) (by decide)
      defaultAction defaultMinScore (fun _ => "")).trans (by decide),
   (verify_hostname_not_allowed acceptedResponse testHostnames).2 (by decide)⟩

/-- C8: when the transport, error-code, success and hostname checks pass and
the action of the response is not the expected one, Verify fails with the
message "recaptchav3: action '<r.Action>' does not equal expected '<action>'",
whatever the minimum score is. -/
theorem verify_action_mismatch (r : Response) (action : String) (minScore : Float64)
    (hostnames : StringSlice) (fmtG : Float64 → String)
    (herr : r.err = none) (hcodes : r.ErrorCodes.elems = []) (hsucc : r.Success = true)
    (hhost : hostnames.elems = [] ∨ r.Hostname ∈ hostnames.elems)
    (haction : r.Action ≠ action) :
    (r.Verify action minScore hostnames).map (GoError.Error fmtG)
      = some ("recaptchav3: action '" ++ r.Action ++ "' does not equal expected '"
          ++ action ++ "'") := by
  rw [verify_after_hostname_check r action minScore hostnames herr hcodes hsucc hhost]
  simp [haction, GoError.Error]

/-- Witness of C8: the response of `TestResponse_Verify_ActionMismatch` is
rejected with the message of that test. -/
theorem verify_action_mismatch_witness :
    (({ acceptedResponse with Action := "homepage-fake" } : Response).Verify
        defaultAction defaultMinScore testHostnames).map (GoError.Error fun _ => "")
      = some "recaptchav3: action 'homepage-fake' does not equal expected 'homepage'" :=
  (verify_action_mismatch { acceptedResponse with Action := "homepage-fake" }
    defaultAction defaultMinScore testHostnames (fun _ => "")
    rfl rfl rfl (Or.inr (by decide)) (by decide)).trans (by decide)

/-- C9: when every check before the score check passes, Verify succeeds if
the score equals the minimum (as the same value, or under the float64
comparison `==`), and if the score is less than the minimum it fails with a
below-minimum-score error whose fields are the score of the response and the
minimum score. -/
theorem verify_score_boundary (r : Response) (action : String) (minScore : Float64)
    (hostnames : StringSlice)
    (herr : r.err = none) (hcodes : r.ErrorCodes.elems = []) (hsucc : r.Success = true)
    (hhost : hostnames.elems = [] ∨ r.Hostname ∈ hostnames.elems)
    (haction : r.Action = action) :
    ((r.Score = minScore ∨ r.Score.eq minScore = true) →
        r.Verify action minScore hostnames = none)
      ∧ (r.Score.lt minScore = true →
          ∃ e : errBelowMinScore, r.Verify action minScore hostnames = some (.belowMinScore e)
            ∧ e.Score = r.Score ∧ e.MinScore = minScore) := by
  rw [verify_after_hostname_check r action minScore hostnames herr hcodes hsucc hhost]
  constructor
  · intro h
    have hlt : r.Score.lt minScore = false := by
      rcases h with h | h
      · rw [h]
        exact Float64.lt_irrefl minScore
      · exact Float64.lt_eq_false_of_eq _ _ h
    simp [haction, hlt]
  · intro hlt
    exact ⟨{ Score := r.Score, MinScore := minScore }, by simp [haction, hlt], rfl, rfl⟩

/-- Witness of C9: a score of 0.5 passes the minimum 0.5, and the score 0.4
of `TestResponse_Verify_BelowMinScore` fails with the fields 0.4 and 0.5. -/
theorem verify_score_boundary_witness :
    ({ acceptedResponse with Score := Float64.half } : Response).Verify
        defaultAction defaultMinScore testHostnames = none
      ∧ ∃ e : errBelowMinScore,
          ({ acceptedResponse with Score := Float64.fourTenths } : Response).Verify
              defaultAction defaultMinScore testHostnames = some (.belowMinScore e)
            ∧ e.Score = Float64.fourTenths ∧ e.MinScore = Float64.half :=
  ⟨(verify_score_boundary { acceptedResponse with Score := Float64.half }
      defaultAction defaultMinScore testHostnames rfl rfl rfl (Or.inr (by decide)) rfl).1
      (Or.inl rfl),
   (verify_score_boundary { acceptedResponse with Score := Float64.fourTenths }
      defaultAction defaultMinScore testHostnames rfl rfl rfl (Or.inr (by decide)) rfl).2
      (by decide)⟩

/-- C10, as the claim states it, fails: IsBelowMinScore returns true for an
error whose unwrap chain holds no below-minimum-score error, when the error
has an Is method of its own that answers true, and when it is the join of
io.EOF and a below-minimum-score error, which `errors.Unwrap` does not open. -/
theorem isBelowMinScore_true_without_chain_member :
    ((∀ x ∈ alwaysError.chain, isErrBelowMinScore x = false)
        ∧ IsBelowMinScore (some alwaysError) = true)
      ∧ ((∀ x ∈ joinedError.chain, isErrBelowMinScore x = false)
        ∧ IsBelowMinScore (some joinedError) = true) := by
  decide

/-- C10, amended: IsBelowMinScore is true of a below-minimum-score error
under any number of wrapping layers (one layer per message of the list, none
for the empty list), whatever Score and MinScore it carries; it is false of
nil and of every error from which no below-minimum-score error and no error
whose own Is method answers true is reached, through `Unwrap() error` or
through `Unwrap() []error`, the error itself included. -/
theorem isBelowMinScore_under_wrapping :
    (∀ (e : errBelowMinScore) (layers : List String),
        IsBelowMinScore (some (wrapLayers layers (.belowMinScore e))) = true)
      ∧ IsBelowMinScore none = false
      ∧ ∀ err : GoError,
          (∀ x ∈ err.tree, isErrBelowMinScore x = false ∧ ownIsAnswer x = false) →
          IsBelowMinScore (some err) = false := by
  refine ⟨?_, rfl, ?_⟩
  · intro e layers
    exact (IsBelowMinScore_some_iff _).2
      ⟨.belowMinScore e, mem_tree_wrapLayers layers _, Or.inl rfl⟩
  · intro err hnone
    cases h : IsBelowMinScore (some err) with
    | false => rfl
    | true =>
      obtain ⟨x, hx, hb⟩ := (IsBelowMinScore_some_iff err).1 h
      rw [(hnone x hx).1, (hnone x hx).2] at hb
      exact absurd hb (by decide)

/-- Witness of C10, amended: the five errors of `errBelowMinScoreCases`, and
io.EOF under a wrapping layer. -/
theorem isBelowMinScore_under_wrapping_witness :
    IsBelowMinScore (some (.belowMinScore ⟨Float64.zero, Float64.zero⟩)) = true
      ∧ IsBelowMinScore (some (wrapLayers ["error: "]
          (.belowMinScore ⟨Float64.fourTenths, Float64.half⟩))) = true
      ∧ IsBelowMinScore (some (wrapLayers ["outer error: error: ", "error: "]
          (.belowMinScore ⟨Float64.zero, Float64.zero⟩))) = true
      ∧ IsBelowMinScore none = false
      ∧ IsBelowMinScore (some ioEOF) = false
      ∧ IsBelowMinScore (some (.wrap "read body: EOF" ioEOF)) = false :=
  ⟨isBelowMinScore_under_wrapping.1 _ [],
   isBelowMinScore_under_wrapping.1 _ ["error: "],
   isBelowMinScore_under_wrapping.1 _ ["outer error: error: ", "error: "],
   isBelowMinScore_under_wrapping.2.1,
   isBelowMinScore_under_wrapping.2.2 ioEOF (by decide),
   isBelowMinScore_under_wrapping.2.2 (.wrap "read body: EOF" ioEOF) (by decide)⟩

/-! ## Lemmas on the request body -/

theorem stringLess_keys :
    stringLess "response" "secret" = true ∧ stringLess "remoteip" "response" = true
      ∧ stringLess "remoteip" "secret" = true ∧ stringLess "secret" "response" = false
      ∧ stringLess "response" "remoteip" = false ∧ stringLess "secret" "remoteip" = false := by
  decide

theorem urlQueryEscape_keys :
    urlQueryEscape "secret" = "secret" ∧ urlQueryEscape "response" = "response"
      ∧ urlQueryEscape "remoteip" = "remoteip" := by
  decide

theorem encode_data (secretKey captchaResponse remoteIP : String) :
    (siteVerify.data secretKey captchaResponse remoteIP).Encode =
      (if remoteIP = "" then
        "response=" ++ urlQueryEscape captchaResponse ++ "&secret=" ++ urlQueryEscape secretKey
      else
        "remoteip=" ++ urlQueryEscape remoteIP ++ "&response="
          ++ urlQueryEscape captchaResponse ++ "&secret=" ++ urlQueryEscape secretKey) := by
  obtain ⟨l1, l2, l3, l4, l5, l6⟩ := stringLess_keys
  obtain ⟨q1, q2, q3⟩ := urlQueryEscape_keys
  have n1 : 0 < "response=".length := by decide
  have n2 : 0 < "remoteip=".length := by decide
  have n3 : 0 < "response".length := by decide
  have c1 : ("&secret=" : String) = "&" ++ "secret" ++ "=" := by decide
  have c2 : ("&response=" : String) = "&" ++ "response" ++ "=" := by decide
  by_cases h : remoteIP = ""
  · simp [siteVerify.data, Values.make, Values.Set, Values.Encode, Values.get, List.lookup,
      sortStrings, sortStrings.insert, Values.Encode.keys, Values.Encode.values, h,
      l1, l2, l3, l4, l5, l6, q1, q2, q3, n1, n2, n3]
    rw [c1]
    simp [String.append_assoc]
  · simp [siteVerify.data, Values.make, Values.Set, Values.Encode, Values.get, List.lookup,
      sortStrings, sortStrings.insert, Values.Encode.keys, Values.Encode.values, h,
      l1, l2, l3, l4, l5, l6, q1, q2, q3, n1, n2, n3]
    rw [c1, c2]
    simp [String.append_assoc]

theorem data_keys (secretKey captchaResponse remoteIP : String) :
    (siteVerify.data secretKey captchaResponse remoteIP).entries.map Prod.fst =
      if remoteIP = "" then ["response", "secret"] else ["remoteip", "response", "secret"] := by
  by_cases h : remoteIP = "" <;> simp [siteVerify.data, Values.make, Values.Set, h]

/-! ## Lemmas on the outcomes of the exchange -/

theorem siteVerify_of_dispatch_failure (env : Env) (fmtG : Float64 → String)
    (ctx : Option Context) (secretKey captchaResponse remoteIP postURL : String) (e : GoError)
    (hfail : DispatchFails env ctx secretKey captchaResponse remoteIP postURL e) :
    siteVerify env fmtG ctx secretKey captchaResponse remoteIP postURL =
      { Response.zeroValue with err := some (.wrap ("recaptchav3: " ++ e.Error fmtG) e) } := by
  rcases hfail with h | ⟨h, hdo⟩
  · simp [siteVerify, httpNewRequestWithContext, h]
  · simp only [siteVerify.request] at hdo
    simp [siteVerify, httpNewRequestWithContext, h, hdo]

theorem siteVerify_of_read_failure (env : Env) (fmtG : Float64 → String)
    (ctx : Option Context) (secretKey captchaResponse remoteIP postURL : String)
    (resp : HTTPResponse) (b : String) (e : GoError)
    (hreply : Replied env ctx secretKey captchaResponse remoteIP postURL resp)
    (hbody : resp.Body = (b, some e)) :
    siteVerify env fmtG ctx secretKey captchaResponse remoteIP postURL =
      { Response.zeroValue with
        err := some (.wrap ("recaptchav3: read body: " ++ e.Error fmtG) e) } := by
  obtain ⟨h, hdo⟩ := hreply
  simp only [siteVerify.request] at hdo
  simp [siteVerify, httpNewRequestWithContext, h, hdo, hbody]

theorem siteVerify_of_status (env : Env) (fmtG : Float64 → String)
    (ctx : Option Context) (secretKey captchaResponse remoteIP postURL : String)
    (resp : HTTPResponse) (b : String)
    (hreply : Replied env ctx secretKey captchaResponse remoteIP postURL resp)
    (hbody : resp.Body = (b, none)) (hstatus : resp.StatusCode ≠ httpStatusOK) :
    siteVerify env fmtG ctx secretKey captchaResponse remoteIP postURL =
      { Response.zeroValue with
        err := some (.plain ("recaptchav3: http: " ++ resp.Status ++ ", body: '"
          ++ b ++ "'")) } := by
  obtain ⟨h, hdo⟩ := hreply
  simp only [siteVerify.request] at hdo
  simp [siteVerify, httpNewRequestWithContext, h, hdo, hbody, hstatus]

theorem siteVerify_of_decode_failure (env : Env) (fmtG : Float64 → String)
    (ctx : Option Context) (secretKey captchaResponse remoteIP postURL : String)
    (resp : HTTPResponse) (b : String) (obj : Response) (d : GoError)
    (hreply : Replied env ctx secretKey captchaResponse remoteIP postURL resp)
    (hbody : resp.Body = (b, none)) (hstatus : resp.StatusCode = httpStatusOK)
    (hdecode : env.Unmarshal b Response.zeroValue = (obj, some d)) :
    siteVerify env fmtG ctx secretKey captchaResponse remoteIP postURL =
      { Response.zeroValue with
        err := some (.wrap ("recaptchav3: error decoding json: " ++ d.Error fmtG
          ++ ", body: '" ++ b ++ "'") d) } := by
  obtain ⟨h, hdo⟩ := hreply
  simp only [siteVerify.request] at hdo
  simp [siteVerify, httpNewRequestWithContext, h, hdo, hbody, hstatus, jsonUnmarshal, hdecode]

theorem siteVerify_of_decoded (env : Env) (fmtG : Float64 → String)
    (ctx : Option Context) (secretKey captchaResponse remoteIP postURL : String)
    (resp : HTTPResponse) (b : String) (obj : Response)
    (hreply : Replied env ctx secretKey captchaResponse remoteIP postURL resp)
    (hbody : resp.Body = (b, none)) (hstatus : resp.StatusCode = httpStatusOK)
    (hdecode : env.Unmarshal b Response.zeroValue = (obj, none)) :
    siteVerify env fmtG ctx secretKey captchaResponse remoteIP postURL =
      { obj with err := none } := by
  obtain ⟨h, hdo⟩ := hreply
  simp only [siteVerify.request] at hdo
  simp [siteVerify, httpNewRequestWithContext, h, hdo, hbody, hstatus, jsonUnmarshal, hdecode]
  rfl

theorem ne_statusOK_of_not_2xx (statusCode : Int) (h : is2xx statusCode = false) :
    statusCode ≠ httpStatusOK := by
  intro heq
  rw [heq] at h
  exact absurd h (by decide)

/-! ## Lemmas on messages -/

theorem read_body_ne_decoding (x y : String) :
    "recaptchav3: read body: " ++ x ≠ "recaptchav3: error decoding json: " ++ y := by
  intro h
  have h1 := congrArg (fun s : String => s.data.take 14) h
  simp only [String.data_append] at h1
  rw [List.take_append_of_le_length (by decide), List.take_append_of_le_length (by decide)] at h1
  exact absurd h1 (by decide)

theorem deadline_ne_canceled (p q : String) :
    p ++ "context deadline exceeded" ≠ q ++ "context canceled" := by
  intro h
  have h1 := congrArg (fun s : String => s.data.reverse.take 16) h
  simp only [String.data_append, List.reverse_append] at h1
  rw [List.take_append_of_le_length (by decide), List.take_append_of_le_length (by decide)] at h1
  exact absurd h1 (by decide)

theorem string_append_left_cancel (a x y : String) (h : a ++ x = a ++ y) : x = y := by
  have h1 := congrArg String.data h
  simp only [String.data_append] at h1
  exact String.ext (List.append_cancel_left h1)

/-! ## Claims on the exchange -/

/-- C11: the body siteVerify hands to the transport is the form encoding with
the fields in alphabetical order and the values escaped,
"response=..&secret=.." when the remote address is empty and
"remoteip=..&response=..&secret=.." otherwise: a transport that reports the
body it receives reports that text; on every transport siteVerify returns the
same when `Do` refuses every other body; and the request it builds has that
body and a remoteip field exactly when the remote address is not empty. -/
theorem siteVerify_request_body (fmtG : Float64 → String) (ctx : Option Context)
    (secretKey captchaResponse remoteIP postURL : String) :
    siteVerify echoBodyEnv fmtG ctx secretKey captchaResponse remoteIP postURL
        = { Response.zeroValue with
            err := some (.wrap
              ("recaptchav3: " ++ specFormBody secretKey captchaResponse remoteIP)
              (.plain (specFormBody secretKey captchaResponse remoteIP))) }
      ∧ (∀ env : Env,
          siteVerify env fmtG ctx secretKey captchaResponse remoteIP postURL
            = siteVerify
                { env with
                  Do := fun req =>
                    if req.Body = specFormBody secretKey captchaResponse remoteIP
                    then env.Do req else .error (.plain "another body") }
                fmtG ctx secretKey captchaResponse remoteIP postURL)
      ∧ (siteVerify.request ctx secretKey captchaResponse remoteIP postURL).Body
          = specFormBody secretKey captchaResponse remoteIP
      ∧ ("remoteip" ∈ (siteVerify.data secretKey captchaResponse remoteIP).entries.map Prod.fst
          ↔ remoteIP ≠ "") := by
  have hbody : (siteVerify.data secretKey captchaResponse remoteIP).Encode
      = specFormBody secretKey captchaResponse remoteIP :=
    encode_data secretKey captchaResponse remoteIP
  refine ⟨?_, ?_, hbody, ?_⟩
  · simp [siteVerify, httpNewRequestWithContext, echoBodyEnv, Request.setHeader, hbody,
      GoError.Error]
  · intro env
    cases hnew : env.NewRequestError ctx "POST" postURL with
    | some e => simp [siteVerify, httpNewRequestWithContext, hnew]
    | none =>
      simp [siteVerify, httpNewRequestWithContext, hnew, Request.setHeader, hbody,
        jsonUnmarshal]
  · rw [data_keys]
    by_cases h : remoteIP = "" <;> simp [h]

/-- Witness of C11: the bodies expected by
`TestSiteVerify_SendsParamsWithRemoteIP` and
`TestSiteVerify_SendsParamsWithoutRemoteIP`, as the transport receives them. -/
theorem siteVerify_request_body_witness :
    siteVerify echoBodyEnv (fun _ => "") backgroundCtx "ab&c" "de=f" "127.0.0.1" testURL
        = { Response.zeroValue with
            err := some (.wrap "recaptchav3: remoteip=127.0.0.1&response=de%3Df&secret=ab%26c"
              (.plain "remoteip=127.0.0.1&response=de%3Df&secret=ab%26c")) }
      ∧ siteVerify echoBodyEnv (fun _ => "") backgroundCtx "ab&c" "de=f" "" testURL
        = { Response.zeroValue with
            err := some (.wrap "recaptchav3: response=de%3Df&secret=ab%26c"
              (.plain "response=de%3Df&secret=ab%26c")) } :=
  ⟨(siteVerify_request_body (fun _ => "") backgroundCtx "ab&c" "de=f" "127.0.0.1"
      testURL).1.trans (by decide),
   (siteVerify_request_body (fun _ => "") backgroundCtx "ab&c" "de=f" "" testURL).1.trans
      (by decide)⟩

/-- C12: whatever the inputs, the transport and the decoder do, a Response
returned by siteVerify with its transport error set has every other field at
its zero value. -/
theorem siteVerify_error_fields_zero (env : Env) (fmtG : Float64 → String)
    (ctx : Option Context) (secretKey captchaResponse remoteIP postURL : String)
    (herr : (siteVerify env fmtG ctx secretKey captchaResponse remoteIP postURL).err ≠ none) :
    siteVerify env fmtG ctx secretKey captchaResponse remoteIP postURL =
      { Response.zeroValue with
        err := (siteVerify env fmtG ctx secretKey captchaResponse remoteIP postURL).err } := by
  cases hnew : env.NewRequestError ctx "POST" postURL with
  | some e =>
    rw [siteVerify_of_dispatch_failure env fmtG ctx secretKey captchaResponse remoteIP postURL e
      (Or.inl hnew)]
  | none =>
    cases hdo : env.Do (siteVerify.request ctx secretKey captchaResponse remoteIP postURL) with
    | error e =>
      rw [siteVerify_of_dispatch_failure env fmtG ctx secretKey captchaResponse remoteIP postURL
        e (Or.inr ⟨hnew, hdo⟩)]
    | ok resp =>
      have hreply : Replied env ctx secretKey captchaResponse remoteIP postURL resp :=
        ⟨hnew, hdo⟩
      obtain ⟨b, rerr, hbody⟩ : ∃ b rerr, resp.Body = (b, rerr) := ⟨_, _, rfl⟩
      cases rerr with
      | some e => rw [siteVerify_of_read_failure env fmtG ctx _ _ _ _ resp b e hreply hbody]
      | none =>
        by_cases hstatus : resp.StatusCode = httpStatusOK
        · obtain ⟨obj, derr, hdecode⟩ :
              ∃ obj derr, env.Unmarshal b Response.zeroValue = (obj, derr) := ⟨_, _, rfl⟩
          cases derr with
          | some d =>
            rw [siteVerify_of_decode_failure env fmtG ctx _ _ _ _ resp b obj d hreply hbody
              hstatus hdecode]
          | none =>
            rw [siteVerify_of_decoded env fmtG ctx _ _ _ _ resp b obj hreply hbody hstatus
              hdecode] at herr
            exact absurd rfl herr
        · rw [siteVerify_of_status env fmtG ctx _ _ _ _ resp b hreply hbody hstatus]

/-- Witness of C12: the nil context of `TestSiteVerify_NilContext` gives a
Response that is zero-valued but for its error. -/
theorem siteVerify_error_fields_zero_witness :
    siteVerify (replyEnv ⟨"200 OK", 200, (echoBody, none)⟩) (fun _ => "") none
        "abc" "def" "127.0.0.1" testURL
      = { Response.zeroValue with
          err := some (.wrap "recaptchav3: net/http: nil Context"
            (.plain "net/http: nil Context")) } :=
  (siteVerify_error_fields_zero (replyEnv ⟨"200 OK", 200, (echoBody, none)⟩) (fun _ => "") none
    "abc" "def" "127.0.0.1" testURL (by decide)).trans (by decide)

/-- C13: when the reply has a status that is not a success status and its
body was read as the text b, siteVerify returns a Response whose transport
error has the message "recaptchav3: http: <status>, body: '<b>'", whatever
the decoder would do with the body. -/
theorem siteVerify_non_success_status (env : Env) (fmtG : Float64 → String)
    (ctx : Option Context) (secretKey captchaResponse remoteIP postURL : String)
    (resp : HTTPResponse) (b : String)
    (hreply : Replied env ctx secretKey captchaResponse remoteIP postURL resp)
    (hbody : resp.Body = (b, none)) (hstatus : is2xx resp.StatusCode = false) :
    (∀ decoder : String → Response → Response × Option GoError,
        siteVerify { env with Unmarshal := decoder } fmtG ctx secretKey captchaResponse
            remoteIP postURL
          = { Response.zeroValue with
              err := some (.plain ("recaptchav3: http: " ++ resp.Status ++ ", body: '"
                ++ b ++ "'")) })
      ∧ (siteVerify env fmtG ctx secretKey captchaResponse remoteIP postURL).err.map
          (GoError.Error fmtG)
        = some ("recaptchav3: http: " ++ resp.Status ++ ", body: '" ++ b ++ "'") := by
  have hne := ne_statusOK_of_not_2xx _ hstatus
  constructor
  · intro decoder
    exact siteVerify_of_status { env with Unmarshal := decoder } fmtG ctx _ _ _ _ resp b
      hreply hbody hne
  · rw [siteVerify_of_status env fmtG ctx _ _ _ _ resp b hreply hbody hne]
    rfl

/-- Witness of C13: the status 500 with an empty body of
`TestSiteVerify_HTTP500`. -/
theorem siteVerify_non_success_status_witness :
    (siteVerify (replyEnv ⟨"500 Internal Server Error", 500, ("", none)⟩) (fun _ => "")
        backgroundCtx "abc" "def" "127.0.0.1" testURL).err.map (GoError.Error fun _ => "")
      = some "recaptchav3: http: 500 Internal Server Error, body: ''" :=
  (siteVerify_non_success_status (replyEnv ⟨"500 Internal Server Error", 500, ("", none)⟩)
    (fun _ => "") backgroundCtx "abc" "def" "127.0.0.1" testURL
    ⟨"500 Internal Server Error", 500, ("", none)⟩ "" ⟨rfl, rfl⟩ rfl (by decide)).2.trans
    (by decide)

/-- C14, as the claim states it, fails: a reply with the success status
201 Created, whose body is read in full and decodes without error, is
returned as a transport error. -/
theorem siteVerify_status_created_rejected :
    is2xx 201 = true
      ∧ Replied (replyEnv ⟨"201 Created", 201, (echoBody, none)⟩) backgroundCtx
          "abc" "def" "127.0.0.1" testURL ⟨"201 Created", 201, (echoBody, none)⟩
      ∧ ((replyEnv ⟨"201 Created", 201, (echoBody, none)⟩).Unmarshal echoBody
          Response.zeroValue).2 = none
      ∧ siteVerify (replyEnv ⟨"201 Created", 201, (echoBody, none)⟩) (fun _ => "")
          backgroundCtx "abc" "def" "127.0.0.1" testURL
        = { Response.zeroValue with
            err := some (.plain ("recaptchav3: http: 201 Created, body: '" ++ echoBody
              ++ "'")) } :=
  ⟨by decide, ⟨rfl, rfl⟩, by decide, by decide⟩

/-- C14, amended: when the reply has the status 200, its body is read in
full and decodes without error, siteVerify returns the decoded reply with no
transport error; when the body is read in full and the status is any other
one, the other 2xx statuses included, siteVerify returns the transport error
of the status, whether or not the body would decode; and the transport error
of the status is returned for no reply with the status 200. -/
theorem siteVerify_status_ok_decoded (env : Env) (fmtG : Float64 → String)
    (ctx : Option Context) (secretKey captchaResponse remoteIP postURL : String)
    (resp : HTTPResponse) (b : String)
    (hreply : Replied env ctx secretKey captchaResponse remoteIP postURL resp)
    (hbody : resp.Body = (b, none)) :
    (resp.StatusCode = 200 →
        ∀ obj : Response, env.Unmarshal b Response.zeroValue = (obj, none) →
          siteVerify env fmtG ctx secretKey captchaResponse remoteIP postURL
            = { obj with err := none })
      ∧ (resp.StatusCode ≠ 200 →
          siteVerify env fmtG ctx secretKey captchaResponse remoteIP postURL
            = { Response.zeroValue with
                err := some (.plain ("recaptchav3: http: " ++ resp.Status ++ ", body: '"
                  ++ b ++ "'")) })
      ∧ ((siteVerify env fmtG ctx secretKey captchaResponse remoteIP postURL).err
            = some (.plain ("recaptchav3: http: " ++ resp.Status ++ ", body: '" ++ b ++ "'")) →
          resp.StatusCode ≠ 200) := by
  refine ⟨?_, ?_, ?_⟩
  · intro hstatus obj hdecode
    exact siteVerify_of_decoded env fmtG ctx _ _ _ _ resp b obj hreply hbody hstatus hdecode
  · intro hstatus
    exact siteVerify_of_status env fmtG ctx _ _ _ _ resp b hreply hbody hstatus
  · intro herr hstatus
    obtain ⟨obj, derr, hdecode⟩ :
        ∃ obj derr, env.Unmarshal b Response.zeroValue = (obj, derr) := ⟨_, _, rfl⟩
    cases derr with
    | some d =>
      rw [siteVerify_of_decode_failure env fmtG ctx _ _ _ _ resp b obj d hreply hbody hstatus
        hdecode] at herr
      simp at herr
    | none =>
      rw [siteVerify_of_decoded env fmtG ctx _ _ _ _ resp b obj hreply hbody hstatus
        hdecode] at herr
      simp at herr

/-- Witness of C14, amended: the reply of `newPOSTEchoServer`, status 200,
gives a Response with Success true, the score 0.9 and no error; a reply
204 No Content with an empty body, which does not decode, gives the transport
error of the status. -/
theorem siteVerify_status_ok_decoded_witness :
    siteVerify (replyEnv ⟨"200 OK", 200, (echoBody, none)⟩) (fun _ => "") backgroundCtx
        "ab&c" "de=f" "127.0.0.1" testURL
        = { Response.zeroValue with Success := true, Score := Float64.nineTenths }
      ∧ siteVerify (replyEnv ⟨"204 No Content", 204, ("", none)⟩) (fun _ => "") backgroundCtx
        "ab&c" "de=f" "127.0.0.1" testURL
        = { Response.zeroValue with
            err := some (.plain "recaptchav3: http: 204 No Content, body: ''") } :=
  ⟨(siteVerify_status_ok_decoded (replyEnv ⟨"200 OK", 200, (echoBody, none)⟩) (fun _ => "")
      backgroundCtx "ab&c" "de=f" "127.0.0.1" testURL ⟨"200 OK", 200, (echoBody, none)⟩
      echoBody ⟨rfl, rfl⟩ rfl).1 rfl
      { Response.zeroValue with Success := true, Score := Float64.nineTenths } (by decide),
   ((siteVerify_status_ok_decoded (replyEnv ⟨"204 No Content", 204, ("", none)⟩)
      (fun _ => "") backgroundCtx "ab&c" "de=f" "127.0.0.1" testURL
      ⟨"204 No Content", 204, ("", none)⟩ "" ⟨rfl, rfl⟩ rfl).2.1 (by decide)).trans
      (by decide)⟩

/-- C15: when the reply has the status 200 and its body b fails to decode
with the error d, siteVerify returns a zero-valued Response whose transport
error has the message "recaptchav3: error decoding json: <message of d>,
body: '<b>'" and unwraps to d. -/
theorem siteVerify_decode_failure (env : Env) (fmtG : Float64 → String)
    (ctx : Option Context) (secretKey captchaResponse remoteIP postURL : String)
    (resp : HTTPResponse) (b : String) (obj : Response) (d : GoError)
    (hreply : Replied env ctx secretKey captchaResponse remoteIP postURL resp)
    (hbody : resp.Body = (b, none)) (hstatus : resp.StatusCode = 200)
    (hdecode : env.Unmarshal b Response.zeroValue = (obj, some d)) :
    ∃ e : GoError,
      siteVerify env fmtG ctx secretKey captchaResponse remoteIP postURL
          = { Response.zeroValue with err := some e }
        ∧ e.Error fmtG = "recaptchav3: error decoding json: " ++ d.Error fmtG
            ++ ", body: '" ++ b ++ "'"
        ∧ errorsUnwrap e = some d :=
  ⟨_, siteVerify_of_decode_failure env fmtG ctx _ _ _ _ resp b obj d hreply hbody hstatus
    hdecode, rfl, rfl⟩

/-- Witness of C15: the body "bogus response" of
`TestSiteVerify_BadJSONResponse`. -/
theorem siteVerify_decode_failure_witness :
    ∃ e : GoError,
      siteVerify (replyEnv ⟨"200 OK", 200, ("bogus response", none)⟩) (fun _ => "")
          backgroundCtx "abc" "def" "127.0.0.1" testURL
          = { Response.zeroValue with err := some e }
        ∧ e.Error (fun _ => "") = "recaptchav3: error decoding json: "
            ++ "invalid character 'b' looking for beginning of value, body: 'bogus response'"
        ∧ errorsUnwrap e
            = some (.plain "invalid character 'b' looking for beginning of value") :=
  siteVerify_decode_failure (replyEnv ⟨"200 OK", 200, ("bogus response", none)⟩) (fun _ => "")
    backgroundCtx "abc" "def" "127.0.0.1" testURL ⟨"200 OK", 200, ("bogus response", none)⟩
    "bogus response" Response.zeroValue
    (.plain "invalid character 'b' looking for beginning of value") ⟨rfl, rfl⟩ rfl rfl
    (by decide)

/-- C16: when the request cannot be built or dispatched because of an error
e, siteVerify returns a zero-valued Response whose transport error has the
message "recaptchav3: " followed by the message of e and unwraps to e; Verify
returns that error; and a failure whose message ends with "context deadline
exceeded" and one whose message ends with "context canceled" give different
messages after Verify. -/
theorem siteVerify_dispatch_failure (env : Env) (fmtG : Float64 → String)
    (ctx : Option Context) (secretKey captchaResponse remoteIP postURL : String) (e : GoError)
    (hfail : DispatchFails env ctx secretKey captchaResponse remoteIP postURL e) :
    siteVerify env fmtG ctx secretKey captchaResponse remoteIP postURL
        = { Response.zeroValue with err := some (.wrap ("recaptchav3: " ++ e.Error fmtG) e) }
      ∧ (∀ (action : String) (minScore : Float64) (hostnames : StringSlice),
          (siteVerify env fmtG ctx secretKey captchaResponse remoteIP postURL).Verify
              action minScore hostnames
            = some (.wrap ("recaptchav3: " ++ e.Error fmtG) e))
      ∧ (∀ (env2 : Env) (ctx2 : Option Context) (e2 : GoError),
          DispatchFails env2 ctx2 secretKey captchaResponse remoteIP postURL e2 →
          (∃ p : String, e.Error fmtG = p ++ "context deadline exceeded") →
          (∃ q : String, e2.Error fmtG = q ++ "context canceled") →
          ∀ (action : String) (minScore : Float64) (hostnames : StringSlice),
            ((siteVerify env fmtG ctx secretKey captchaResponse remoteIP postURL).Verify
                action minScore hostnames).map (GoError.Error fmtG)
              ≠ ((siteVerify env2 fmtG ctx2 secretKey captchaResponse remoteIP postURL).Verify
                action minScore hostnames).map (GoError.Error fmtG)) := by
  have h1 := siteVerify_of_dispatch_failure env fmtG ctx secretKey captchaResponse remoteIP
    postURL e hfail
  refine ⟨h1, ?_, ?_⟩
  · intro action minScore hostnames
    rw [h1]
    rfl
  · intro env2 ctx2 e2 hfail2 ⟨p, hp⟩ ⟨q, hq⟩ action minScore hostnames
    rw [h1, siteVerify_of_dispatch_failure env2 fmtG ctx2 secretKey captchaResponse remoteIP
      postURL e2 hfail2]
    intro heq
    have hmsg : "recaptchav3: " ++ e.Error fmtG = "recaptchav3: " ++ e2.Error fmtG := by
      simpa [Response.Verify, GoError.Error] using heq
    have hcut := string_append_left_cancel _ _ _ hmsg
    rw [hp, hq] at hcut
    exact deadline_ne_canceled p q hcut

/-- Witness of C16: the deadline failure of `TestSiteVerify_ContextTimeout`
keeps its message through Verify and differs from the cancellation of
`TestSiteVerify_ContextCanceled`; the nil context of
`TestSiteVerify_NilContext` gives "recaptchav3: net/http: nil Context". -/
theorem siteVerify_dispatch_failure_witness :
    (siteVerify (failEnv deadlineError) (fun _ => "") backgroundCtx "abc" "def" "127.0.0.1"
        testURL).Verify defaultAction defaultMinScore none
        = some (.wrap "recaptchav3: Post http://127.0.0.1:8080: context deadline exceeded"
            deadlineError)
      ∧ ((siteVerify (failEnv deadlineError) (fun _ => "") backgroundCtx "abc" "def"
            "127.0.0.1" testURL).Verify defaultAction defaultMinScore none).map
            (GoError.Error fun _ => "")
          ≠ ((siteVerify (failEnv canceledError) (fun _ => "") backgroundCtx "abc" "def"
            "127.0.0.1" testURL).Verify defaultAction defaultMinScore none).map
            (GoError.Error fun _ => "")
      ∧ siteVerify (failEnv deadlineError) (fun _ => "") none "abc" "def" "127.0.0.1" testURL
          = { Response.zeroValue with
              err := some (.wrap "recaptchav3: net/http: nil Context"
                (.plain "net/http: nil Context")) } :=
  ⟨((siteVerify_dispatch_failure (failEnv deadlineError) (fun _ => "") backgroundCtx "abc"
      "def" "127.0.0.1" testURL deadlineError (Or.inr ⟨rfl, rfl⟩)).2.1
      defaultAction defaultMinScore none).trans (by decide),
   (siteVerify_dispatch_failure (failEnv deadlineError) (fun _ => "") backgroundCtx "abc"
      "def" "127.0.0.1" testURL deadlineError (Or.inr ⟨rfl, rfl⟩)).2.2
      (failEnv canceledError) backgroundCtx canceledError (Or.inr ⟨rfl, rfl⟩)
      ⟨"Post http://127.0.0.1:8080: ", by decide⟩ ⟨"Post http://127.0.0.1:8080: ", by decide⟩
      defaultAction defaultMinScore none,
   (siteVerify_dispatch_failure (failEnv deadlineError) (fun _ => "") none "abc" "def"
      "127.0.0.1" testURL (.plain "net/http: nil Context") (Or.inl rfl)).1.trans (by decide)⟩

/-- C18: when the body of the reply cannot be read in full because of an
error e, siteVerify returns a zero-valued Response whose transport error has
the message "recaptchav3: read body: " followed by the message of e and
unwraps to e; no text that begins with "recaptchav3: error decoding json: "
equals that message. -/
theorem siteVerify_read_failure (env : Env) (fmtG : Float64 → String)
    (ctx : Option Context) (secretKey captchaResponse remoteIP postURL : String)
    (resp : HTTPResponse) (b : String) (e : GoError)
    (hreply : Replied env ctx secretKey captchaResponse remoteIP postURL resp)
    (hbody : resp.Body = (b, some e)) :
    ∃ rerr : GoError,
      siteVerify env fmtG ctx secretKey captchaResponse remoteIP postURL
          = { Response.zeroValue with err := some rerr }
        ∧ rerr.Error fmtG = "recaptchav3: read body: " ++ e.Error fmtG
        ∧ errorsUnwrap rerr = some e
        ∧ ∀ rest : String, rerr.Error fmtG ≠ "recaptchav3: error decoding json: " ++ rest :=
  ⟨_, siteVerify_of_read_failure env fmtG ctx _ _ _ _ resp b e hreply hbody, rfl, rfl,
    fun rest => read_body_ne_decoding (e.Error fmtG) rest⟩

/-- Witness of C18: the truncated body of `TestSiteVerify_ReadBodyError`. -/
theorem siteVerify_read_failure_witness :
    ∃ rerr : GoError,
      siteVerify (replyEnv ⟨"200 OK", 200, ("", some ioErrUnexpectedEOF)⟩) (fun _ => "")
          backgroundCtx "" "" "" testURL
          = { Response.zeroValue with err := some rerr }
        ∧ rerr.Error (fun _ => "") = "recaptchav3: read body: unexpected EOF"
        ∧ errorsUnwrap rerr = some ioErrUnexpectedEOF
        ∧ ∀ rest : String,
            rerr.Error (fun _ => "") ≠ "recaptchav3: error decoding json: " ++ rest :=
  siteVerify_read_failure (replyEnv ⟨"200 OK", 200, ("", some ioErrUnexpectedEOF)⟩)
    (fun _ => "") backgroundCtx "" "" "" testURL ⟨"200 OK", 200, ("", some ioErrUnexpectedEOF)⟩
    "" ioErrUnexpectedEOF ⟨rfl, rfl⟩ rfl

/-! ## Claims on the classification of errors -/

/-- C19: the Is method of the below-minimum-score error is defined on every
error and is true exactly when its argument, or an error reached from it by
unwrapping, is a below-minimum-score error, so it is false for nil; errors.Is
with the parameters reversed is the answer of that Is method on every error,
and it agrees with IsBelowMinScore on nil and on every error built from
errors.New, fmt.Errorf with one %w and below-minimum-score errors, in
particular on the five errors of the test suite. -/
theorem errBelowMinScore_Is_walks_chain :
    (∀ err : Option GoError,
        errBelowMinScore.Is err = true ↔
          ∃ e, err = some e ∧ ∃ x ∈ e.chain, isErrBelowMinScore x = true)
      ∧ errBelowMinScore.Is none = false
      ∧ ∀ err : Option GoError,
          errorsIs (some (.belowMinScore ⟨Float64.zero, Float64.zero⟩)) err
              = errBelowMinScore.Is err
            ∧ ((∀ e, err = some e → e.foreignFree = true) →
                errorsIs (some (.belowMinScore ⟨Float64.zero, Float64.zero⟩)) err
                  = IsBelowMinScore err) := by
  refine ⟨?_, rfl, ?_⟩
  · intro err
    cases err with
    | none => simp [errBelowMinScore.Is]
    | some e => simp [errBelowMinScore.Is, IsLoop_eq_true_iff]
  · intro err
    cases err with
    | none => exact ⟨rfl, fun _ => rfl⟩
    | some e =>
      refine ⟨rfl, fun hfree => ?_⟩
      simp [errorsIs, IsBelowMinScore, errorsIsLoop, errBelowMinScore.Is,
        errorsIsLoop_belowMinScore_target _ e (hfree e rfl)]

/-- Witness of C19: on the five errors of `errBelowMinScoreCases`, errors.Is
with the parameters reversed gives the expected answers. -/
theorem errBelowMinScore_Is_walks_chain_witness :
    errorsIs (some (.belowMinScore ⟨Float64.zero, Float64.zero⟩))
        (some (.belowMinScore ⟨Float64.zero, Float64.zero⟩)) = true
      ∧ errorsIs (some (.belowMinScore ⟨Float64.zero, Float64.zero⟩))
        (some (wrapLayers ["error: "] (.belowMinScore ⟨Float64.zero, Float64.zero⟩))) = true
      ∧ errorsIs (some (.belowMinScore ⟨Float64.zero, Float64.zero⟩))
        (some (wrapLayers ["outer error: error: ", "error: "]
          (.belowMinScore ⟨Float64.zero, Float64.zero⟩))) = true
      ∧ errorsIs (some (.belowMinScore ⟨Float64.zero, Float64.zero⟩)) (some ioEOF) = false
      ∧ errorsIs (some (.belowMinScore ⟨Float64.zero, Float64.zero⟩)) none = false :=
  ⟨((errBelowMinScore_Is_walks_chain.2.2 _).2 (by decide)).trans (by decide),
   ((errBelowMinScore_Is_walks_chain.2.2 _).2 (by decide)).trans (by decide),
   ((errBelowMinScore_Is_walks_chain.2.2 _).2 (by decide)).trans (by decide),
   ((errBelowMinScore_Is_walks_chain.2.2 _).2 (by decide)).trans (by decide),
   ((errBelowMinScore_Is_walks_chain.2.2 _).2 (by decide)).trans (by decide)⟩

/-- C20: for a Response with no transport error, IsBelowMinScore of the
result of Verify is true exactly when the error-code, success, hostname and
action checks pass and the score is less than the minimum; so no other
failure and no success is classified as below the minimum score. -/
theorem isBelowMinScore_verify_iff (r : Response) (action : String) (minScore : Float64)
    (hostnames : StringSlice) (herr : r.err = none) :
    IsBelowMinScore (r.Verify action minScore hostnames) = true ↔
      r.ErrorCodes.elems = [] ∧ r.Success = true
        ∧ (hostnames.elems = [] ∨ r.Hostname ∈ hostnames.elems)
        ∧ r.Action = action ∧ r.Score.lt minScore = true := by
  by_cases hcodes : r.ErrorCodes.elems = []
  · cases hsucc : r.Success with
    | false =>
      have hl : len r.ErrorCodes = 0 := (len_eq_zero_iff _).2 hcodes
      simp [Response.Verify, herr, hl, hsucc, IsBelowMinScore, errorsIs, errorsIsLoop]
    | true =>
      by_cases hhost : hostnames.elems = [] ∨ r.Hostname ∈ hostnames.elems
      · rw [verify_after_hostname_check r action minScore hostnames herr hcodes hsucc hhost]
        by_cases haction : r.Action = action
        · cases hlt : r.Score.lt minScore <;>
            simp [haction, hcodes, hhost, IsBelowMinScore, errorsIs, errorsIsLoop,
              errBelowMinScore.Is, errBelowMinScore.IsLoop]
        · simp [haction, IsBelowMinScore, errorsIs, errorsIsLoop]
      · have hne : hostnames.elems ≠ [] := fun h => hhost (Or.inl h)
        have hmem : r.Hostname ∉ hostnames.elems := fun h => hhost (Or.inr h)
        have hl : len r.ErrorCodes = 0 := (len_eq_zero_iff _).2 hcodes
        simp [Response.Verify, herr, hl, hsucc, checkHostnames_of_not_mem _ _ hne hmem,
          IsBelowMinScore, errorsIs, errorsIsLoop, hhost, hne, hmem]
  · have hl : len r.ErrorCodes ≠ 0 := fun h => hcodes ((len_eq_zero_iff _).1 h)
    simp [Response.Verify, herr, hl, hcodes, IsBelowMinScore, errorsIs, errorsIsLoop]

/-- Witness of C20: the response of `TestResponse_Verify_BelowMinScore` is
classified as below the minimum score. -/
theorem isBelowMinScore_verify_iff_witness :
    IsBelowMinScore (({ acceptedResponse with Score := Float64.fourTenths } : Response).Verify
        defaultAction defaultMinScore testHostnames) = true :=
  (isBelowMinScore_verify_iff { acceptedResponse with Score := Float64.fourTenths }
    defaultAction defaultMinScore testHostnames rfl).2
    ⟨rfl, rfl, Or.inr (by decide), rfl, by decide⟩

/-! ## Lemmas on the threshold -/

theorem Float64.lt_eq_false_of_le (s low high : Float64) (hle : low.le high = true)
    (h : s.lt high = false) : s.lt low = false := by
  simp only [Float64.le, Bool.and_eq_true, Bool.not_eq_true', decide_eq_true_eq] at hle
  obtain ⟨⟨hlow, hhigh⟩, hkey⟩ := hle
  cases hs : s.isNaN with
  | true => simp [Float64.lt, hs]
  | false =>
    have hnot : ¬ s.key < high.key := by
      simpa [Float64.lt, hs, hhigh] using h
    have hge : ¬ s.key < low.key := by omega
    simp [Float64.lt, hs, hlow, hge]

/-! ## Claims on relations between calls of Verify -/

/-- C21: Verify is monotone in the threshold: when the lower threshold is
less than or equal to the higher one under the float64 comparison and Verify
succeeds with the higher one, it succeeds with the lower one, for the same
response, action and allow-list. -/
theorem verify_monotone_in_threshold (r : Response) (action : String)
    (hostnames : StringSlice) (low high : Float64) (hle : low.le high = true)
    (hok : r.Verify action high hostnames = none) :
    r.Verify action low hostnames = none := by
  unfold Response.Verify at hok ⊢
  cases he : r.err with
  | some e => simp [he] at hok
  | none =>
    simp only [he] at hok ⊢
    by_cases hl : len r.ErrorCodes = 0
    · cases hs : r.Success with
      | false => simp [hl, hs] at hok
      | true =>
        cases hh : checkHostnames hostnames r.Hostname with
        | some e => simp [hl, hs, hh] at hok
        | none =>
          by_cases ha : r.Action = action
          · cases hlt : r.Score.lt high with
            | true => simp [hl, hs, hh, ha, hlt] at hok
            | false => simp [hl, hs, hh, ha, Float64.lt_eq_false_of_le _ _ _ hle hlt]
          · simp [hl, hs, hh, ha] at hok
    · simp [hl] at hok

/-- Witness of C21: the response of `TestResponse_Verify_SuccessWithHostnames`,
accepted with the minimum 0.5, is accepted with the minimum 0.4. -/
theorem verify_monotone_in_threshold_witness :
    Float64.fourTenths.le Float64.half = true
      ∧ acceptedResponse.Verify defaultAction Float64.half testHostnames = none
      ∧ acceptedResponse.Verify defaultAction Float64.fourTenths testHostnames = none :=
  ⟨by decide, by decide,
   verify_monotone_in_threshold acceptedResponse defaultAction testHostnames
     Float64.fourTenths Float64.half (by decide) (by decide)⟩

/-- C22: the result of Verify does not depend on the challenge timestamp: two
Responses that agree on every field but ChallengeTS get the same result for
every policy, nil for both or the same error with the same message. -/
theorem verify_ignores_challengeTS (r1 r2 : Response) (action : String) (minScore : Float64)
    (hostnames : StringSlice) (fmtG : Float64 → String)
    (hSuccess : r1.Success = r2.Success) (hScore : r1.Score = r2.Score)
    (hAction : r1.Action = r2.Action) (hHostname : r1.Hostname = r2.Hostname)
    (hErrorCodes : r1.ErrorCodes = r2.ErrorCodes) (herr : r1.err = r2.err) :
    r1.Verify action minScore hostnames = r2.Verify action minScore hostnames
      ∧ (r1.Verify action minScore hostnames).map (GoError.Error fmtG)
          = (r2.Verify action minScore hostnames).map (GoError.Error fmtG) := by
  have h : r1.Verify action minScore hostnames = r2.Verify action minScore hostnames := by
    simp only [Response.Verify, hSuccess, hScore, hAction, hHostname, hErrorCodes, herr]
  exact ⟨h, by rw [h]⟩

/-- Witness of C22: the response of `TestResponse_Verify_BelowMinScore` gets
the same below-minimum-score error with the zero timestamp and with another
timestamp. -/
theorem verify_ignores_challengeTS_witness :
    ({ acceptedResponse with Score := Float64.fourTenths, ChallengeTS := ⟨0, 63715474064, none⟩ }
        : Response).Verify defaultAction defaultMinScore testHostnames
      = some (.belowMinScore ⟨Float64.fourTenths, Float64.half⟩)
      ∧ ({ acceptedResponse with Score := Float64.fourTenths } : Response).Verify
          defaultAction defaultMinScore testHostnames
        = some (.belowMinScore ⟨Float64.fourTenths, Float64.half⟩) :=
  ⟨((verify_ignores_challengeTS
      { acceptedResponse with Score := Float64.fourTenths, ChallengeTS := ⟨0, 63715474064, none⟩ }
      { acceptedResponse with Score := Float64.fourTenths }
      defaultAction defaultMinScore testHostnames (fun _ => "") rfl rfl rfl rfl rfl rfl).1).trans
      (by decide),
   by decide⟩

/-! ## Lemmas on the JSON form -/

end Recaptchav3
